import Mathlib

/-!
# Fan control daemon (`fancontrold.c`)

A shallow embedding of the control logic of `fancontrold.c` together with
machine-checked statements about it.

Conventions of the embedding:

* C integers are `Nat`/`Int`; the wrap-around of `uint32_t` and `uint8_t`
  values is written explicitly with `%`.
* Calls into libc, libiio and sysfs are not executed; the outcome of every
  such call is an input of the model (`FileRead`, `AttrRead`, `IioCtx`,
  `WriteOutcome`, `Cycle`, ...).
* Every externally visible action is recorded as an `Event`; functions with
  side effects return the list of events they performed, in order.
* `run` is an endless loop in C.  Here it consumes a finite list of `Cycle`
  inputs, one for each iteration, and reports `RunResult.pending` when the
  inputs are used up while the loop is still running.
-/

namespace FanControl

/-! ## Constants (lines 49-76) -/

def PWM_25 : Nat := 64
def PWM_50 : Nat := 128
def PWM_75 : Nat := 191
def PWM_100 : Nat := 255

def THRESH_PWM_000 : Int := 5000
def THRESH_PWM_025_L : Int := 20000
def THRESH_PWM_025_H : Int := 40000
def THRESH_PWM_050_L : Int := 60000
def THRESH_PWM_050_H : Int := 70000
def THRESH_PWM_075_L : Int := 80000
def THRESH_PWM_075_H : Int := 90000
def THRESH_PWM_100 : Int := 95000

def DEFAULT_DEVNAME : String := "axi_fan_control"
def HWMON_PATH : String := "/sys/class/hwmon"
def DONT_CARE : Int := -1
def HMC7044_SLEEP_REG : Int := 0
def HMC7044_SLEEP_VAL : String := "1"

def ENODEV : Int := 19
def EXIT_SUCCESS : Int := 0

/-! ## libc helpers -/

/-- The C `isspace` in the "C" locale: space, `\t`, `\n`, `\v`, `\f`, `\r`. -/
def isspace (c : Char) : Bool :=
  c.toNat == 32 || (9 ≤ c.toNat && c.toNat ≤ 13)

/-- The C `isdigit`. -/
def isdigit (c : Char) : Bool :=
  48 ≤ c.toNat && c.toNat ≤ 57

/-- Value of the longest run of leading decimal digits, accumulated onto `acc`. -/
def digits_value : List Char → Nat → Nat
  | [], acc => acc
  | c :: cs, acc =>
    if isdigit c then digits_value cs (acc * 10 + (c.toNat - 48)) else acc

def LONG_MAX : Int := 2 ^ 63 - 1
def LONG_MIN : Int := -(2 ^ 63)

/-- What one call `strtol(buf, &endptr, 10)` reports. -/
structure StrtolResult where
  /-- the returned `long` -/
  value : Int
  /-- Whether `errno` was set to `ERANGE` -/
  erange : Bool
  /-- Whether `endptr == buf`: no digits were found -/
  no_digits : Bool
deriving DecidableEq, Repr

/-- A `long` magnitude with its sign, saturated at `LONG_MIN`/`LONG_MAX`. -/
def strtol_saturate (negative : Bool) (magnitude : Nat) : StrtolResult :=
  let v : Int := if negative then -(magnitude : Int) else (magnitude : Int)
  if v < LONG_MIN then ⟨LONG_MIN, true, false⟩
  else if v > LONG_MAX then ⟨LONG_MAX, true, false⟩
  else ⟨v, false, false⟩

/-- The digits after the optional sign: none at all means no conversion. -/
def strtol_digits (negative : Bool) : List Char → StrtolResult
  | [] => ⟨0, false, true⟩
  | c :: cs =>
    if isdigit c then strtol_saturate negative (digits_value (c :: cs) 0)
    else ⟨0, false, true⟩

/-- The C `strtol(s, &endptr, 10)`: leading white space is skipped, an optional
sign is read, then decimal digits; the value saturates with `ERANGE`; without
digits the value is 0 and `endptr` is `s`. -/
def strtol (s : List Char) : StrtolResult :=
  match s.dropWhile isspace with
  | [] => ⟨0, false, true⟩
  | c :: cs =>
    if c.toNat = 45 then strtol_digits true cs
    else if c.toNat = 43 then strtol_digits false cs
    else strtol_digits false (c :: cs)

/-- Conversion of a `long` to `int` (two's complement, 32 bits). -/
def to_int32 (v : Int) : Int :=
  (v + 2 ^ 31) % 2 ^ 32 - 2 ^ 31

/-- The C `atoi`, as glibc defines it: `(int) strtol(s, NULL, 10)`. -/
def atoi (s : String) : Int :=
  to_int32 (strtol s.toList).value

/-- Conversion of an `int` to `uint32_t`. -/
def to_uint32 (v : Int) : Nat :=
  (v % 2 ^ 32).toNat

/-- Conversion of an `int` to `uint8_t`. -/
def to_uint8 (v : Int) : Nat :=
  (v % 2 ^ 8).toNat

/-! ## sysfs attribute files (lines 155-196) -/

/-- Outcome of the libc calls `sysfs_read_attr` makes on one attribute file. -/
inductive FileRead where
  /-- Here `fopen` returned NULL. -/
  | fopen_fails
  /-- Here `fgets` returned NULL (end of file before any byte, or a read error). -/
  | fgets_fails
  /-- Here `fgets` stored `buf` but `strndup` returned NULL. -/
  | strndup_fails (buf : String)
  /-- Here `fgets` stored `buf` and `strndup` succeeded. -/
  | line (buf : String)
deriving DecidableEq, Repr

/-- The `strndup(buf, strlen(buf) - 1)` of line 175; the length is a `size_t`,
so an empty `buf` asks for `SIZE_MAX` bytes and is copied whole. -/
def strndup_drop_last (buf : String) : String :=
  String.mk (buf.toList.take ((buf.toList.length + (2 ^ 64 - 1)) % 2 ^ 64))

/-- Function `sysfs_read_attr` (lines 155-177): `none` is the NULL return. -/
def sysfs_read_attr : FileRead → Option String
  | .fopen_fails => none
  | .fgets_fails => none
  | .strndup_fails _ => none
  | .line buf => some (strndup_drop_last buf)

/-- Outcome of the libc calls `sysfs_write_attr` makes. -/
inductive WriteOutcome where
  /-- Here `fopen` returned NULL: nothing is written. -/
  | fopen_fails
  /-- Here `fprintf` returned a negative value. -/
  | fprintf_fails
  /-- the value reached the file. -/
  | written
deriving DecidableEq, Repr

/-! ## Threshold mapping (lines 225-248) -/

/-- Function `monitor_get_pwm` (lines 225-248); `fan_monitor_pwm` is the global
`fan_monitor.pwm` the function reads in its last branch. -/
def monitor_get_pwm (temperature : Int) (fan_monitor_pwm : Nat) : Nat :=
  if temperature ≤ THRESH_PWM_000 then
    0
  else if temperature ≥ THRESH_PWM_025_L ∧ temperature ≤ THRESH_PWM_025_H then
    PWM_25
  else if temperature ≥ THRESH_PWM_050_L ∧ temperature ≤ THRESH_PWM_050_H then
    PWM_50
  else if temperature ≥ THRESH_PWM_075_L ∧ temperature ≤ THRESH_PWM_075_H then
    PWM_75
  else if temperature ≥ THRESH_PWM_100 then
    PWM_100
  else
    fan_monitor_pwm

/-! ## Data model (lines 83-139) -/

/-- The C `struct monitor_iio_dev_lookup`. -/
structure monitor_iio_dev_lookup where
  name : String
  channel_idx : Int
  attr : String
deriving DecidableEq, Repr

/-- The C `struct monitor_iio_dev_shutdown` (the suffix keeps it apart from the
function of the same name); `none` is a NULL pointer. -/
structure monitor_iio_dev_shutdown_t where
  name : Option String
  attr_name : Option String
  attr_val : Option String
  reg : Int
deriving DecidableEq, Repr

/-- The C `struct monitor_iio_dev`: a bound channel (named by its device and channel
id) and the attribute to read from it. -/
structure monitor_iio_dev where
  ch : String
  attr : String
deriving DecidableEq, Repr

/-- The C `struct monitor` (the global `fan_monitor`); `numb_devs` is the length of
`iio_devs`. -/
structure monitor where
  path : Option String
  ctx : Bool
  iio_devs : List monitor_iio_dev
  pwm : Nat
deriving DecidableEq, Repr

/-- The field `numb_devs`: the number of bound channels. -/
def monitor.numb_devs (m : monitor) : Nat := m.iio_devs.length

/-- The state `run` works on: the global `fan_monitor` and the function-static
counter `cnt` of `monitor_handle_fan_fault`. -/
structure State where
  fan_monitor : monitor
  cnt : Nat
deriving DecidableEq, Repr

/-- The externally visible actions of the daemon. -/
inductive Event where
  /-- Message `error("select: ...")` at line 346 -/
  | select_error
  /-- Call `sysfs_read_attr(fan_monitor.path, "fan1_fault")` -/
  | read_fan1_fault
  /-- Message `emerg("FAN is faulty. System is going to poweroff!!!")` -/
  | emerg_fan_faulty
  /-- Message `error("IIO device not properly initialized")` -/
  | error_not_initialized
  /-- Call `iio_context_find_device(fan_monitor.ctx, name)` -/
  | iio_find_device (name : String)
  /-- Message `warn("Could not find iio dev ...")` -/
  | warn_not_found (name : String)
  /-- Call `iio_device_attr_write_raw(dev, attr_name, attr_val, ...)` -/
  | iio_attr_write_raw (name attr_name attr_val : String)
  /-- Call `iio_device_reg_write(dev, reg, val)` -/
  | iio_reg_write (name : String) (reg val : Nat)
  /-- Message `warn("Failed to disable dev:...")` -/
  | warn_disable_failed (name : String)
  /-- Call `reboot(RB_POWER_OFF)` -/
  | reboot_power_off
  /-- Call `clean_up()` -/
  | clean_up
  /-- Call `iio_channel_attr_read` on `fan_monitor.iio_devs[cnt]` -/
  | iio_channel_attr_read (cnt : Nat)
  /-- the call `monitor_get_pwm(temperature)` at line 365 -/
  | get_pwm (temperature : Int)
  /-- Call `sysfs_write_attr(fan_monitor.path, "pwm1", pwm)` and how it went -/
  | write_pwm1 (pwm : Nat) (outcome : WriteOutcome)
deriving DecidableEq, Repr

/-- Function `sysfs_write_attr(path, "pwm1", pwm)` (lines 179-196): the function returns
nothing, whatever `fopen` and `fprintf` report. -/
def sysfs_write_attr (outcome : WriteOutcome) (pwm : Nat) : List Event :=
  [Event.write_pwm1 pwm outcome]

/-! ## Reading one temperature channel (lines 198-223) -/

/-- Outcome of `iio_channel_attr_read` on one channel: its return value and the
text it left in `buf`. -/
structure AttrRead where
  cnt : Int
  buf : String
deriving DecidableEq, Repr

/-- Function `monitor_iio_dev_attr_get` (lines 198-223). -/
def monitor_iio_dev_attr_get (r : AttrRead) : Int :=
  if r.cnt < 0 then
    0
  else
    let p := strtol r.buf.toList
    if p.erange then 0
    else if p.no_digits then 0
    else p.value

/-! ## Emergency shutdown (lines 250-329) -/

/-- Behaviour of the libiio calls made while shutting devices down. -/
structure IioCtx where
  /-- Whether `iio_context_find_device(ctx, name)` is not NULL -/
  find_device : String → Bool
  /-- return value of `iio_device_attr_write_raw(dev, attr_name, attr_val, len)` -/
  attr_write_raw : String → String → String → Int
  /-- return value of `iio_device_reg_write(dev, reg, val)` -/
  reg_write : String → Nat → Nat → Int

/-- Function `monitor_iio_dev_shutdown` (lines 250-271). -/
def monitor_iio_dev_shutdown (ctx : IioCtx) (iio_shutdown : monitor_iio_dev_shutdown_t) :
    List Event :=
  match iio_shutdown.name, iio_shutdown.attr_name, iio_shutdown.attr_val with
  | some name, some attr_name, some attr_val =>
    if !ctx.find_device name then
      [Event.iio_find_device name, Event.warn_not_found name]
    else if ctx.attr_write_raw name attr_name attr_val < 0 then
      [Event.iio_find_device name, Event.iio_attr_write_raw name attr_name attr_val,
        Event.warn_disable_failed name]
    else
      [Event.iio_find_device name, Event.iio_attr_write_raw name attr_name attr_val]
  | _, _, _ => [Event.error_not_initialized]

/-- Function `monitor_iio_dev_debug_shutdown` (lines 273-294). -/
def monitor_iio_dev_debug_shutdown (ctx : IioCtx) (iio_shutdown : monitor_iio_dev_shutdown_t) :
    List Event :=
  match iio_shutdown.name, iio_shutdown.attr_val with
  | some name, some attr_val =>
    if iio_shutdown.reg = DONT_CARE then
      [Event.error_not_initialized]
    else if !ctx.find_device name then
      [Event.iio_find_device name, Event.warn_not_found name]
    else
      let val := to_uint32 (atoi attr_val)
      if ctx.reg_write name (to_uint32 iio_shutdown.reg) val < 0 then
        [Event.iio_find_device name, Event.iio_reg_write name (to_uint32 iio_shutdown.reg) val,
          Event.warn_disable_failed name]
      else
        [Event.iio_find_device name, Event.iio_reg_write name (to_uint32 iio_shutdown.reg) val]
  | _, _ => [Event.error_not_initialized]

/-- The C `struct monitor_dev_shutdown`: the device and the function pointer that
disables it (`none` is a NULL pointer). -/
structure monitor_dev_shutdown where
  iio_dev : monitor_iio_dev_shutdown_t
  iio_shutdown : Option (IioCtx → monitor_iio_dev_shutdown_t → List Event)

/-- Table `monitor_shutdown_list` (lines 113-120). -/
def monitor_shutdown_list : List monitor_dev_shutdown :=
  [ ⟨⟨some "adrv9009-phy", some "ensm_mode", some "radio_off", DONT_CARE⟩,
      some monitor_iio_dev_shutdown⟩,
    ⟨⟨some "adrv9009-phy-b", some "ensm_mode", some "radio_off", DONT_CARE⟩,
      some monitor_iio_dev_shutdown⟩,
    ⟨⟨some "hmc7044", none, some HMC7044_SLEEP_VAL, HMC7044_SLEEP_REG⟩,
      some monitor_iio_dev_debug_shutdown⟩ ]

/-- The `for` loop of lines 319-323 over the entries still to visit. -/
def shutdown_loop (ctx : IioCtx) : List monitor_dev_shutdown → List Event
  | [] => []
  | d :: rest =>
    match d.iio_shutdown with
    | some f => f ctx d.iio_dev ++ shutdown_loop ctx rest
    | none => shutdown_loop ctx rest

/-- What one call of `monitor_handle_fan_fault` did. -/
structure FaultResult where
  /-- the static counter after the call -/
  cnt : Nat
  /-- the actions performed, in order -/
  events : List Event
  /-- Is `some s` when the call ended the process with `exit(s)`, `none` when it
  returned to `run` -/
  exit_status : Option Int
deriving DecidableEq, Repr

/-- Function `monitor_handle_fan_fault` (lines 296-329); `fault_hyst` is the global
threshold, `cnt` the static counter, `fan1_fault` the outcome of reading the
indicator file. -/
def monitor_handle_fan_fault (fault_hyst : Nat) (ctx : IioCtx) (cnt : Nat)
    (fan1_fault : FileRead) : FaultResult :=
  match sysfs_read_attr fan1_fault with
  | none => ⟨cnt, [Event.read_fan1_fault], none⟩
  | some fault =>
    let fan_fault := to_uint32 (atoi fault)
    if fan_fault = 0 then
      ⟨0, [Event.read_fan1_fault], none⟩
    else if cnt < fault_hyst then
      ⟨(cnt + 1) % 2 ^ 32, [Event.read_fan1_fault], none⟩
    else
      ⟨(cnt + 1) % 2 ^ 32,
        [Event.read_fan1_fault, Event.emerg_fan_faulty]
          ++ shutdown_loop ctx monitor_shutdown_list
          ++ [Event.reboot_power_off, Event.clean_up],
        some EXIT_SUCCESS⟩

/-! ## The control loop (lines 331-372) -/

/-- The `for` loop of lines 356-361: `reads` holds the outcome of the channel
read of each remaining iteration, `max_temp` the running maximum. -/
def max_temp_loop : List AttrRead → Int → Int
  | [], max_temp => max_temp
  | r :: rest, max_temp =>
    let temp := monitor_iio_dev_attr_get r
    max_temp_loop rest (if temp > max_temp then temp else max_temp)

/-- The inputs of one iteration of the loop of `run`. -/
structure Cycle where
  /-- value of `TEMP_FAILURE_RETRY(select(...))` -/
  select_ret : Int
  /-- value of the flag `running` when line 350 tests it -/
  running : Bool
  /-- outcome of reading `fan1_fault` -/
  fan1_fault : FileRead
  /-- behaviour of libiio, should the shutdown be triggered -/
  iio : IioCtx
  /-- outcome of the read of `fan_monitor.iio_devs[cnt]`, by `cnt` -/
  attr_read : Nat → AttrRead
  /-- outcome of writing `pwm1`, should it be written -/
  pwm1_write : WriteOutcome

/-- How one iteration of the loop ended. -/
inductive Step where
  /-- the end of the body was reached; the loop goes on -/
  | next (st : State)
  /-- a `break` left the loop -/
  | brk (st : State)
  /-- Here `exit(status)` was called -/
  | exit (st : State) (status : Int)
deriving DecidableEq, Repr

/-- The outcomes of the channel reads of one cycle, `iio_devs[0]` first. -/
def Cycle.reads (c : Cycle) (numb_devs : Nat) : List AttrRead :=
  (List.range numb_devs).map c.attr_read

/-- The body of the `while (TRUE)` loop of `run` (lines 337-370). -/
def run_body (fault_hyst : Nat) (st : State) (c : Cycle) : List Event × Step :=
  if c.select_ret < 0 then
    ([Event.select_error], Step.brk st)
  else if !c.running then
    ([], Step.brk st)
  else
    let r := monitor_handle_fan_fault fault_hyst c.iio st.cnt c.fan1_fault
    match r.exit_status with
    | some status => (r.events, Step.exit { st with cnt := r.cnt } status)
    | none =>
      let max_temp := max_temp_loop (c.reads st.fan_monitor.numb_devs) 0
      let new_pwm := monitor_get_pwm max_temp st.fan_monitor.pwm
      let sampled := r.events
        ++ (List.range st.fan_monitor.numb_devs).map Event.iio_channel_attr_read
        ++ [Event.get_pwm max_temp]
      if new_pwm ≠ st.fan_monitor.pwm then
        (sampled ++ sysfs_write_attr c.pwm1_write new_pwm,
          Step.next { fan_monitor := { st.fan_monitor with pwm := new_pwm }, cnt := r.cnt })
      else
        (sampled, Step.next { st with cnt := r.cnt })

/-- How a run of the loop over finitely many cycles ended. -/
inductive RunResult where
  /-- the cycles are used up and the loop is still running -/
  | pending (st : State)
  /-- Here `run` returned to `main` -/
  | returned (st : State)
  /-- the process ended in `exit(status)` -/
  | exited (st : State) (status : Int)
deriving DecidableEq, Repr

/-- The state an iteration ended in. -/
def Step.state : Step → State
  | .next st => st
  | .brk st => st
  | .exit st _ => st

/-- The state a run ended in. -/
def RunResult.state : RunResult → State
  | .pending st => st
  | .returned st => st
  | .exited st _ => st

/-- Function `run` (lines 331-372) over the inputs of its first iterations. -/
def run (fault_hyst : Nat) : State → List Cycle → List Event × RunResult
  | st, [] => ([], RunResult.pending st)
  | st, c :: cs =>
    match run_body fault_hyst st c with
    | (ev, Step.next st1) =>
      let rest := run fault_hyst st1 cs
      (ev ++ rest.1, rest.2)
    | (ev, Step.brk st1) => (ev, RunResult.returned st1)
    | (ev, Step.exit st1 status) => (ev, RunResult.exited st1 status)

/-! ## Startup (lines 382-441, 475-535, 606-626) -/

/-- One entry `readdir` returns for `/sys/class/hwmon`, with the outcome of the
calls `hwmon_find` makes on it. -/
structure Dirent where
  /-- Whether `d_type == DT_LNK` -/
  d_is_lnk : Bool
  d_name : String
  /-- outcome of reading the attribute `name` of the entry -/
  name_attr : FileRead
  /-- Whether `calloc` for the copy of the path succeeded -/
  calloc_ok : Bool
  /-- outcome of reading the attribute `pwm1` of the entry -/
  pwm1_attr : FileRead

/-- The `while` loop of `hwmon_find` (lines 397-437) over the entries still to
come; the first component is `ret`. The loop stops at the first entry whose
chip name matches (`found`). -/
def hwmon_find_loop (name : String) : List Dirent → monitor → Int × monitor
  | [], m => (-ENODEV, m)
  | dir :: rest, m =>
    if !dir.d_is_lnk || dir.d_name.toList.take 5 ≠ "hwmon".toList then
      hwmon_find_loop name rest m
    else
      let path := HWMON_PATH ++ "/" ++ dir.d_name
      match sysfs_read_attr dir.name_attr with
      | none => hwmon_find_loop name rest m
      | some chip_name =>
        if chip_name ≠ name then
          hwmon_find_loop name rest m
        else if !dir.calloc_ok then
          (-1, m)
        else
          match sysfs_read_attr dir.pwm1_attr with
          | none => (-1, { m with path := some "" })
          | some pwm => (0, { m with path := some path, pwm := to_uint8 (atoi pwm) })

/-- Function `hwmon_find` (lines 382-441); `hwmon` is `none` when `opendir` fails, else
the directory entries in the order `readdir` returns them. -/
def hwmon_find (dev_name : Option String) (hwmon : Option (List Dirent)) (m : monitor) :
    Int × monitor :=
  let name := match dev_name with
    | none => DEFAULT_DEVNAME
    | some n => n
  match hwmon with
  | none => (-1, m)
  | some dirs => hwmon_find_loop name dirs m

/-- Table `iio_list` (lines 123-126). -/
def iio_list : List monitor_iio_dev_lookup :=
  [⟨"adrv9009-phy", 0, "input"⟩, ⟨"adrv9009-phy-b", 0, "input"⟩]

/-- Behaviour of libiio and of `realloc` during `iio_devices_scan`. -/
structure IioStartup where
  /-- Whether `iio_create_default_context()` is not NULL -/
  create_default_context : Bool
  /-- Whether `iio_context_find_device(ctx, name)` is not NULL -/
  find_device : String → Bool
  /-- Whether `iio_device_find_channel(dev, in_temp, FALSE)` is not NULL -/
  find_channel : String → String → Bool
  /-- Whether `iio_channel_find_attr(channel, attr)` is not NULL -/
  find_attr : String → String → String → Bool
  /-- Whether `realloc` to the given number of elements succeeds -/
  realloc_ok : Nat → Bool

/-- The `for` loop of `iio_devices_scan` (lines 486-532) over the entries of
`iio_list` still to visit; the first component is `ret`. -/
def iio_devices_scan_loop (iio : IioStartup) :
    List monitor_iio_dev_lookup → monitor → Int × monitor
  | [], m => (0, m)
  | e :: rest, m =>
    if !iio.find_device e.name then
      iio_devices_scan_loop iio rest m
    else
      let in_temp := "temp" ++ toString e.channel_idx
      if !iio.find_channel e.name in_temp then
        iio_devices_scan_loop iio rest m
      else if !iio.find_attr e.name in_temp e.attr then
        iio_devices_scan_loop iio rest m
      else if !iio.realloc_ok (m.numb_devs + 1) then
        (-1, m)
      else
        iio_devices_scan_loop iio rest
          { m with iio_devs := m.iio_devs ++ [⟨e.name ++ "/" ++ in_temp, e.attr⟩] }

/-- Function `iio_devices_scan` (lines 475-535). -/
def iio_devices_scan (iio : IioStartup) (m : monitor) : Int × monitor :=
  if !iio.create_default_context then
    (-1, m)
  else
    let r := iio_devices_scan_loop iio iio_list { m with ctx := true }
    (if r.1 = -1 ∨ r.2.numb_devs = 0 then -1 else 0, r.2)

/-- Value of `fan_monitor` after the `memset` of line 560. -/
def fan_monitor_zero : monitor :=
  { path := none, ctx := false, iio_devs := [], pwm := 0 }

/-- Function `main` from line 606 on (the options are parsed and the signals are
registered): the actions performed and the exit status of the process, `none`
while the loop is still running at the end of `cycles`. -/
def main (fault_hyst : Nat) (dev_name : Option String) (hwmon : Option (List Dirent))
    (iio : IioStartup) (cycles : List Cycle) : List Event × Option Int :=
  let h := hwmon_find dev_name hwmon fan_monitor_zero
  if h.1 < 0 then
    ([Event.clean_up], some (if h.1 = -ENODEV then 0 else h.1))
  else
    let s := iio_devices_scan iio h.2
    if s.1 < 0 then
      ([Event.clean_up], some s.1)
    else
      match run fault_hyst { fan_monitor := s.2, cnt := 0 } cycles with
      | (ev, RunResult.pending _) => (ev, none)
      | (ev, RunResult.returned _) => (ev ++ [Event.clean_up], some s.1)
      | (ev, RunResult.exited _ status) => (ev, some status)

/-! ## Vocabulary of the statements -/

/-- The fan-fault indicator could be read: `sysfs_read_attr` did not return
NULL. -/
def readable (f : FileRead) : Bool :=
  (sysfs_read_attr f).isSome

/-- The indicator was read and reports a fault: the `fan_fault` of line 307 is
not 0. -/
def faulty (f : FileRead) : Bool :=
  match sysfs_read_attr f with
  | none => false
  | some fault => to_uint32 (atoi fault) != 0

/-- Position, in a sequence of indicator observations handed one by one to
`monitor_handle_fan_fault` (the counter starting at `cnt`), of the call that
triggers the shutdown; `none` when no call does. -/
def trigger_index (fault_hyst : Nat) (ctx : IioCtx) : Nat → List FileRead → Option Nat
  | _, [] => none
  | cnt, f :: fs =>
    let r := monitor_handle_fan_fault fault_hyst ctx cnt f
    match r.exit_status with
    | some _ => some 0
    | none => (trigger_index fault_hyst ctx r.cnt fs).map (· + 1)

/-- Number of consecutive faulty observations at the end of a sequence. -/
def streak (obs : List FileRead) : Nat :=
  (obs.reverse.takeWhile faulty).length

/-- The device an event looks up in the libiio context. -/
def looked_up : Event → Option String
  | Event.iio_find_device name => some name
  | _ => none

/-- The device an event tries to disable, by an attribute or a register
write. -/
def disable_write : Event → Option String
  | Event.iio_attr_write_raw name _ _ => some name
  | Event.iio_reg_write name _ _ => some name
  | _ => none

/-- The duty value and outcome of an event that writes `pwm1`. -/
def pwm_write : Event → Option (Nat × WriteOutcome)
  | Event.write_pwm1 pwm outcome => some (pwm, outcome)
  | _ => none

/-- The writes of `pwm1` among the events, in order. -/
def pwm_writes (ev : List Event) : List (Nat × WriteOutcome) :=
  ev.filterMap pwm_write

/-- Duty value of the most recent call of `sysfs_write_attr` on `pwm1` among
the events, whatever its outcome; `startup` when there is none. -/
def last_attempted_duty (startup : Nat) (ev : List Event) : Nat :=
  ev.foldl (fun d e =>
    match e with
    | Event.write_pwm1 pwm _ => pwm
    | _ => d) startup

/-- Duty value of the most recent write of `pwm1` among the events that
succeeded; `startup` when there is none. -/
def last_successful_duty (startup : Nat) (ev : List Event) : Nat :=
  ev.foldl (fun d e =>
    match e with
    | Event.write_pwm1 pwm WriteOutcome.written => pwm
    | _ => d) startup

/-- The band table of the spec (section 4.1): the duty of the band the
temperature lies in, `none` in a gap between bands. -/
def band_duty (t : Int) : Option Nat :=
  if t ≤ 5000 then some 0
  else if 20000 ≤ t ∧ t ≤ 40000 then some 64
  else if 60000 ≤ t ∧ t ≤ 70000 then some 128
  else if 80000 ≤ t ∧ t ≤ 90000 then some 191
  else if 95000 ≤ t then some 255
  else none

/-- The read of a channel failed: `iio_channel_attr_read` reported an error,
or `strtol` overflowed or found no digits. -/
def read_failed (r : AttrRead) : Bool :=
  decide (r.cnt < 0) || (strtol r.buf.toList).erange || (strtol r.buf.toList).no_digits

/-! ## Sample inputs -/

/-- A libiio context in which every device is found and every write succeeds. -/
def ctx_all_ok : IioCtx :=
  ⟨fun _ => true, fun _ _ _ => 0, fun _ _ _ => 0⟩

/-- A libiio context in which `adrv9009-phy` is missing, the write to
`adrv9009-phy-b` fails and the register write to `hmc7044` succeeds. -/
def ctx_mixed : IioCtx :=
  ⟨fun name => name != "adrv9009-phy", fun _ _ _ => -5, fun _ _ _ => 0⟩

/-- The indicator file reads `1`: the fan reports a fault. -/
def fault_line : FileRead := FileRead.line "1\n"

/-- The indicator file reads `0`: the fan is fine. -/
def no_fault_line : FileRead := FileRead.line "0\n"

/-- A channel read that returned the text `temp`. -/
def read_ok (temp : String) : AttrRead := ⟨(temp.length : Int), temp⟩

/-- A channel read that failed with `-EIO`. -/
def read_error : AttrRead := ⟨-5, ""⟩

/-- A cycle in which `select` timed out, no stop was requested, the fault
indicator gave `fault`, channel `i` gave the entry `i` of `temps`, and a write
of `pwm1` would end as `w`. -/
def sample_cycle (temps : List AttrRead) (fault : FileRead) (w : WriteOutcome) : Cycle :=
  { select_ret := 0, running := true, fan1_fault := fault, iio := ctx_all_ok,
    attr_read := fun i => temps.getD i read_error, pwm1_write := w }

/-- A cycle in which the stop request is seen after the wait. -/
def stop_cycle : Cycle :=
  { sample_cycle [read_ok "65000\n", read_ok "30000\n"] fault_line WriteOutcome.written with
    running := false }

/-- The state at the start of `run` with both channels bound and the given
startup duty. -/
def sample_state (pwm : Nat) : State :=
  { fan_monitor :=
      { path := some "/sys/class/hwmon/hwmon0", ctx := true,
        iio_devs := [⟨"adrv9009-phy/temp0", "input"⟩, ⟨"adrv9009-phy-b/temp0", "input"⟩],
        pwm := pwm },
    cnt := 0 }

/-- A hwmon directory whose only entry is the fan controller, duty 0. -/
def hwmon_sample : Option (List Dirent) :=
  some [{ d_is_lnk := true, d_name := "hwmon0", name_attr := FileRead.line "axi_fan_control\n",
          calloc_ok := true, pwm1_attr := FileRead.line "0\n" }]

/-- Startup in which every device, channel and attribute is found. -/
def iio_all_found : IioStartup :=
  ⟨true, fun _ => true, fun _ _ => true, fun _ _ _ => true, fun _ => true⟩

/-- Startup in which the context exists but holds none of the devices. -/
def iio_none_found : IioStartup :=
  ⟨true, fun _ => false, fun _ _ => true, fun _ _ _ => true, fun _ => true⟩

/-! # Verified properties -/

/-! ## Threshold mapping -/

/-- C2: `monitor_get_pwm` is the band table for every temperature `t` and every
previous duty `prev`: 0 up to 5000, 64 on [20000, 40000], 128 on
[60000, 70000], 191 on [80000, 90000], 255 from 95000 on, and `prev` in each of
the four gaps. The bands and gaps cover every integer, negative ones included. -/
theorem monitor_get_pwm_band_table (t : Int) (prev : Nat) :
    (t ≤ 5000 → monitor_get_pwm t prev = 0) ∧
    (20000 ≤ t ∧ t ≤ 40000 → monitor_get_pwm t prev = 64) ∧
    (60000 ≤ t ∧ t ≤ 70000 → monitor_get_pwm t prev = 128) ∧
    (80000 ≤ t ∧ t ≤ 90000 → monitor_get_pwm t prev = 191) ∧
    (95000 ≤ t → monitor_get_pwm t prev = 255) ∧
    (5000 < t ∧ t < 20000 → monitor_get_pwm t prev = prev) ∧
    (40000 < t ∧ t < 60000 → monitor_get_pwm t prev = prev) ∧
    (70000 < t ∧ t < 80000 → monitor_get_pwm t prev = prev) ∧
    (90000 < t ∧ t < 95000 → monitor_get_pwm t prev = prev) ∧
    (t ≤ 5000 ∨ (5000 < t ∧ t < 20000) ∨ (20000 ≤ t ∧ t ≤ 40000) ∨
      (40000 < t ∧ t < 60000) ∨ (60000 ≤ t ∧ t ≤ 70000) ∨ (70000 < t ∧ t < 80000) ∨
      (80000 ≤ t ∧ t ≤ 90000) ∨ (90000 < t ∧ t < 95000) ∨ 95000 ≤ t) := by
  simp only [monitor_get_pwm, THRESH_PWM_000, THRESH_PWM_025_L, THRESH_PWM_025_H,
    THRESH_PWM_050_L, THRESH_PWM_050_H, THRESH_PWM_075_L, THRESH_PWM_075_H, THRESH_PWM_100,
    PWM_25, PWM_50, PWM_75, PWM_100]
  refine ⟨?_, ?_, ?_, ?_, ?_, ?_, ?_, ?_, ?_, ?_⟩
  all_goals first
    | omega
    | (intro h; split_ifs <;> omega)

/-- The table of C2 at the spec's example points. -/
theorem monitor_get_pwm_band_table_witness :
    monitor_get_pwm 50000 77 = 77 ∧ monitor_get_pwm (-3) 77 = 0 ∧
    monitor_get_pwm 20000 77 = 64 ∧ monitor_get_pwm 95000 77 = 255 :=
  ⟨(monitor_get_pwm_band_table 50000 77).2.2.2.2.2.2.1 (by decide),
   (monitor_get_pwm_band_table (-3) 77).1 (by decide),
   (monitor_get_pwm_band_table 20000 77).2.1 (by decide),
   (monitor_get_pwm_band_table 95000 77).2.2.2.2.1 (by decide)⟩

/-! ## Fault hysteresis -/

theorem handle_unreadable (fault_hyst : Nat) (ctx : IioCtx) (cnt : Nat) (f : FileRead)
    (h : readable f = false) :
    monitor_handle_fan_fault fault_hyst ctx cnt f = ⟨cnt, [Event.read_fan1_fault], none⟩ := by
  unfold readable at h
  unfold monitor_handle_fan_fault
  cases hs : sysfs_read_attr f with
  | none => rfl
  | some v => simp [hs] at h

theorem handle_not_faulty (fault_hyst : Nat) (ctx : IioCtx) (cnt : Nat) (f : FileRead)
    (hr : readable f = true) (h : faulty f = false) :
    monitor_handle_fan_fault fault_hyst ctx cnt f = ⟨0, [Event.read_fan1_fault], none⟩ := by
  unfold readable at hr
  unfold faulty at h
  unfold monitor_handle_fan_fault
  cases hs : sysfs_read_attr f with
  | none => simp [hs] at hr
  | some v =>
    simp only [hs, bne_eq_false_iff_eq] at h
    simp [h]

theorem handle_faulty_below (fault_hyst : Nat) (ctx : IioCtx) (cnt : Nat) (f : FileRead)
    (h : faulty f = true) (hc : cnt < fault_hyst) :
    monitor_handle_fan_fault fault_hyst ctx cnt f =
      ⟨(cnt + 1) % 2 ^ 32, [Event.read_fan1_fault], none⟩ := by
  unfold faulty at h
  unfold monitor_handle_fan_fault
  cases hs : sysfs_read_attr f with
  | none => simp [hs] at h
  | some v =>
    simp only [hs, bne_iff_ne, ne_eq] at h
    simp [h, hc]

theorem handle_faulty_reached (fault_hyst : Nat) (ctx : IioCtx) (cnt : Nat) (f : FileRead)
    (h : faulty f = true) (hc : ¬ cnt < fault_hyst) :
    monitor_handle_fan_fault fault_hyst ctx cnt f =
      ⟨(cnt + 1) % 2 ^ 32,
        [Event.read_fan1_fault, Event.emerg_fan_faulty]
          ++ shutdown_loop ctx monitor_shutdown_list
          ++ [Event.reboot_power_off, Event.clean_up],
        some EXIT_SUCCESS⟩ := by
  unfold faulty at h
  unfold monitor_handle_fan_fault
  cases hs : sysfs_read_attr f with
  | none => simp [hs] at h
  | some v =>
    simp only [hs, bne_iff_ne, ne_eq] at h
    simp [h, hc]

theorem streak_snoc (l : List FileRead) (o : FileRead) :
    streak (l ++ [o]) = if faulty o = true then streak l + 1 else 0 := by
  unfold streak
  by_cases h : faulty o = true <;> simp [List.takeWhile_cons, h]

theorem trigger_index_cons_next (fault_hyst : Nat) (ctx : IioCtx) (cnt cnt1 : Nat)
    (f : FileRead) (fs : List FileRead) (ev : List Event)
    (h : monitor_handle_fan_fault fault_hyst ctx cnt f = ⟨cnt1, ev, none⟩) :
    trigger_index fault_hyst ctx cnt (f :: fs) =
      (trigger_index fault_hyst ctx cnt1 fs).map (· + 1) := by
  simp [trigger_index, h]

theorem trigger_index_cons_exit (fault_hyst : Nat) (ctx : IioCtx) (cnt cnt1 : Nat)
    (f : FileRead) (fs : List FileRead) (ev : List Event) (s : Int)
    (h : monitor_handle_fan_fault fault_hyst ctx cnt f = ⟨cnt1, ev, some s⟩) :
    trigger_index fault_hyst ctx cnt (f :: fs) = some 0 := by
  simp [trigger_index, h]

/-- The tracker started with the counter equal to the streak of the
observations `pre` already seen. -/
theorem trigger_index_streak_aux (fault_hyst : Nat) (ctx : IioCtx)
    (hh : fault_hyst < 2 ^ 32) (obs : List FileRead) :
    ∀ (pre : List FileRead) (cnt : Nat), cnt = streak pre → cnt ≤ fault_hyst →
      (∀ o ∈ obs, readable o = true) → ∀ i : Nat,
      (trigger_index fault_hyst ctx cnt obs = some i ↔
        i < obs.length ∧ fault_hyst < streak (pre ++ obs.take (i + 1)) ∧
          ∀ j < i, streak (pre ++ obs.take (j + 1)) ≤ fault_hyst) := by
  induction obs with
  | nil =>
    intro pre cnt _ _ _ i
    simp [trigger_index]
  | cons o os ih =>
    intro pre cnt hcnt hle hread i
    have hro : readable o = true := hread o (List.mem_cons_self _ _)
    have hros : ∀ x ∈ os, readable x = true := fun x hx => hread x (List.mem_cons_of_mem _ hx)
    have hsn := streak_snoc pre o
    have happ : ∀ k : Nat, pre ++ (o :: os).take (k + 1) = (pre ++ [o]) ++ os.take k := by
      intro k; simp
    by_cases hf : faulty o = true
    · by_cases hc : cnt < fault_hyst
      · -- the counter advances and stays within the threshold
        have hstep := handle_faulty_below fault_hyst ctx cnt o hf hc
        have hmod : (cnt + 1) % 2 ^ 32 = cnt + 1 := Nat.mod_eq_of_lt (by omega)
        rw [hmod] at hstep
        rw [trigger_index_cons_next fault_hyst ctx cnt (cnt + 1) o os _ hstep]
        have hs1 : cnt + 1 = streak (pre ++ [o]) := by rw [hsn, if_pos hf, hcnt]
        have IH := ih (pre ++ [o]) (cnt + 1) hs1 (by omega) hros
        cases i with
        | zero =>
          have h0 : streak (pre ++ List.take (0 + 1) (o :: os)) = cnt + 1 := by
            rw [happ 0]; simp [← hs1]
          simp only [Option.map_eq_some', List.length_cons]
          constructor
          · rintro ⟨a, _, ha⟩; omega
          · rintro ⟨_, h2, _⟩; rw [h0] at h2; omega
        | succ k =>
          have IHk := IH k
          simp only [Option.map_eq_some', List.length_cons]
          constructor
          · rintro ⟨a, ha, hak⟩
            have hak1 : a = k := by omega
            subst hak1
            obtain ⟨h1, h2, h3⟩ := IHk.mp ha
            refine ⟨by omega, by rw [happ]; exact h2, ?_⟩
            intro j hj
            cases j with
            | zero => rw [happ 0]; simp [← hs1]; omega
            | succ j1 => rw [happ]; exact h3 j1 (by omega)
          · rintro ⟨h1, h2, h3⟩
            refine ⟨k, IHk.mpr ⟨by omega, by rw [← happ]; exact h2, ?_⟩, rfl⟩
            intro j hj
            rw [← happ]
            exact h3 (j + 1) (by omega)
      · -- the threshold is reached: this call triggers
        have hstep := handle_faulty_reached fault_hyst ctx cnt o hf hc
        rw [trigger_index_cons_exit fault_hyst ctx cnt _ o os _ _ hstep]
        have h0 : streak (pre ++ List.take (0 + 1) (o :: os)) = cnt + 1 := by
          rw [happ 0]; simp [hsn, hf, hcnt]
        constructor
        · intro h
          have hi : i = 0 := by simpa using h.symm
          subst hi
          refine ⟨by simp, by rw [h0]; omega, by intro j hj; omega⟩
        · rintro ⟨_, _, h3⟩
          cases i with
          | zero => rfl
          | succ k =>
            have := h3 0 (by omega)
            rw [h0] at this
            omega
    · -- a readable non-faulty observation resets the counter
      have hf0 : faulty o = false := by simpa using hf
      have hstep := handle_not_faulty fault_hyst ctx cnt o hro hf0
      rw [trigger_index_cons_next fault_hyst ctx cnt 0 o os _ hstep]
      have hs1 : 0 = streak (pre ++ [o]) := by rw [hsn, if_neg hf]
      have IH := ih (pre ++ [o]) 0 hs1 (by omega) hros
      cases i with
      | zero =>
        have h0 : streak (pre ++ List.take (0 + 1) (o :: os)) = 0 := by
          rw [happ 0]; simp [← hs1]
        simp only [Option.map_eq_some', List.length_cons]
        constructor
        · rintro ⟨a, _, ha⟩; omega
        · rintro ⟨_, h2, _⟩; rw [h0] at h2; omega
      | succ k =>
        have IHk := IH k
        simp only [Option.map_eq_some', List.length_cons]
        constructor
        · rintro ⟨a, ha, hak⟩
          have hak1 : a = k := by omega
          subst hak1
          obtain ⟨h1, h2, h3⟩ := IHk.mp ha
          refine ⟨by omega, by rw [happ]; exact h2, ?_⟩
          intro j hj
          cases j with
          | zero => rw [happ 0]; simp [← hs1]
          | succ j1 => rw [happ]; exact h3 j1 (by omega)
        · rintro ⟨h1, h2, h3⟩
          refine ⟨k, IHk.mpr ⟨by omega, by rw [← happ]; exact h2, ?_⟩, rfl⟩
          intro j hj
          rw [← happ]
          exact h3 (j + 1) (by omega)

theorem trigger_index_replicate (fault_hyst : Nat) (ctx : IioCtx) (hh : fault_hyst < 2 ^ 32)
    (f : FileRead) (hf : faulty f = true) :
    ∀ (n cnt : Nat), cnt ≤ fault_hyst →
      trigger_index fault_hyst ctx cnt (List.replicate n f) =
        if fault_hyst < cnt + n then some (fault_hyst - cnt) else none := by
  intro n
  induction n with
  | zero =>
    intro cnt hle
    have hk : ¬ fault_hyst < cnt + 0 := by omega
    rw [if_neg hk]
    rfl
  | succ k ih =>
    intro cnt hle
    rw [List.replicate_succ]
    by_cases hc : cnt < fault_hyst
    · have hstep := handle_faulty_below fault_hyst ctx cnt f hf hc
      have hmod : (cnt + 1) % 2 ^ 32 = cnt + 1 := Nat.mod_eq_of_lt (by omega)
      rw [hmod] at hstep
      rw [trigger_index_cons_next fault_hyst ctx cnt (cnt + 1) f _ _ hstep, ih (cnt + 1) (by omega)]
      by_cases hk : fault_hyst < cnt + 1 + k
      · have hk2 : fault_hyst < cnt + (k + 1) := by omega
        rw [if_pos hk, if_pos hk2]
        simp only [Option.map_some', Option.some.injEq]
        omega
      · have hk2 : ¬ fault_hyst < cnt + (k + 1) := by omega
        rw [if_neg hk, if_neg hk2]
        rfl
    · have hstep := handle_faulty_reached fault_hyst ctx cnt f hf hc
      rw [trigger_index_cons_exit fault_hyst ctx cnt _ f _ _ _ hstep]
      have hk2 : fault_hyst < cnt + (k + 1) := by omega
      rw [if_pos hk2]
      simp only [Option.some.injEq]
      omega

/-- C1: for every threshold `fault_hyst` a `uint32_t` can hold (so for every
`fault_hyst ≥ 1`) and every sequence of readable indicator observations handed
to `monitor_handle_fan_fault` with the counter starting at 0, the call on
observation `i` is the one that triggers the shutdown exactly when the number
of consecutive faulty observations ending at `i` exceeds `fault_hyst` and that
of no earlier observation does. So of a run of faulty observations the one
number `fault_hyst + 1` triggers, and none of the first `fault_hyst`. A
readable observation that is not faulty puts the counter back to 0, whatever
it was. -/
theorem fault_shutdown_exactly_above_threshold (fault_hyst : Nat) (ctx : IioCtx)
    (obs : List FileRead) (hh : fault_hyst < 2 ^ 32)
    (hread : ∀ o ∈ obs, readable o = true) :
    (∀ i : Nat, trigger_index fault_hyst ctx 0 obs = some i ↔
      i < obs.length ∧ fault_hyst < streak (obs.take (i + 1)) ∧
        ∀ j < i, streak (obs.take (j + 1)) ≤ fault_hyst) ∧
    (∀ (f : FileRead) (n : Nat), faulty f = true →
      trigger_index fault_hyst ctx 0 (List.replicate n f) =
        if fault_hyst < n then some fault_hyst else none) ∧
    (∀ (cnt : Nat) (f : FileRead), readable f = true → faulty f = false →
      monitor_handle_fan_fault fault_hyst ctx cnt f = ⟨0, [Event.read_fan1_fault], none⟩) := by
  refine ⟨?_, ?_, ?_⟩
  · intro i
    have h := trigger_index_streak_aux fault_hyst ctx hh obs [] 0 (by simp [streak])
      (Nat.zero_le _) hread i
    simpa using h
  · intro f n hf
    have h := trigger_index_replicate fault_hyst ctx hh f hf n 0 (Nat.zero_le _)
    simpa using h
  · intro cnt f hr hf
    exact handle_not_faulty fault_hyst ctx cnt f hr hf

/-- C1 with the default threshold 5: of six consecutive faulty cycles the sixth
triggers the shutdown, and five faulty cycles trigger nothing; a fault-free
cycle after three faults starts the count again, so that the shutdown comes
with the sixth fault after it. -/
theorem fault_shutdown_exactly_above_threshold_witness :
    trigger_index 5 ctx_all_ok 0 (List.replicate 6 fault_line) = some 5 ∧
    trigger_index 5 ctx_all_ok 0 (List.replicate 5 fault_line) = none ∧
    trigger_index 5 ctx_all_ok 0
      [fault_line, fault_line, fault_line, no_fault_line, fault_line, fault_line, fault_line,
        fault_line, fault_line, fault_line, fault_line] = some 9 :=
  ⟨(fault_shutdown_exactly_above_threshold 5 ctx_all_ok (List.replicate 6 fault_line)
      (by decide) (by decide)).2.1 fault_line 6 (by decide),
   (fault_shutdown_exactly_above_threshold 5 ctx_all_ok (List.replicate 5 fault_line)
      (by decide) (by decide)).2.1 fault_line 5 (by decide),
   ((fault_shutdown_exactly_above_threshold 5 ctx_all_ok _ (by decide)
      (by decide)).1 9).mpr (by decide)⟩

/-- The observations before position `i` that could be read. -/
theorem trigger_index_filter_readable (fault_hyst : Nat) (ctx : IioCtx) (obs : List FileRead) :
    ∀ cnt : Nat, trigger_index fault_hyst ctx cnt (obs.filter readable) =
      (trigger_index fault_hyst ctx cnt obs).map
        (fun i => ((obs.take i).filter readable).length) := by
  induction obs with
  | nil => intro cnt; simp [trigger_index]
  | cons o os ih =>
    intro cnt
    by_cases hr : readable o = true
    · rw [List.filter_cons_of_pos hr]
      cases hstep : monitor_handle_fan_fault fault_hyst ctx cnt o with
      | mk cnt1 ev ex =>
        cases ex with
        | none =>
          rw [trigger_index_cons_next fault_hyst ctx cnt cnt1 o _ ev hstep,
            trigger_index_cons_next fault_hyst ctx cnt cnt1 o _ ev hstep, ih cnt1]
          cases trigger_index fault_hyst ctx cnt1 os with
          | none => rfl
          | some i => simp [List.filter_cons_of_pos hr]
        | some s =>
          rw [trigger_index_cons_exit fault_hyst ctx cnt cnt1 o _ ev s hstep,
            trigger_index_cons_exit fault_hyst ctx cnt cnt1 o _ ev s hstep]
          rfl
    · have hr0 : readable o = false := by simpa using hr
      rw [List.filter_cons_of_neg hr]
      have hstep := handle_unreadable fault_hyst ctx cnt o hr0
      rw [trigger_index_cons_next fault_hyst ctx cnt cnt o _ _ hstep, ih cnt]
      cases trigger_index fault_hyst ctx cnt os with
      | none => rfl
      | some i => simp [List.filter_cons_of_neg hr]

/-- C6: when the fan-fault indicator cannot be read, `monitor_handle_fan_fault`
returns to the loop with the counter unchanged, whatever the counter is; hence
a sequence of observations with unreadable cycles in it triggers the shutdown
at the same readable observation as the sequence without them. -/
theorem unreadable_indicator_keeps_counter (fault_hyst : Nat) (ctx : IioCtx) :
    (∀ (cnt : Nat) (f : FileRead), readable f = false →
      monitor_handle_fan_fault fault_hyst ctx cnt f =
        ⟨cnt, [Event.read_fan1_fault], none⟩) ∧
    (∀ (cnt : Nat) (obs : List FileRead),
      trigger_index fault_hyst ctx cnt (obs.filter readable) =
        (trigger_index fault_hyst ctx cnt obs).map
          (fun i => ((obs.take i).filter readable).length)) :=
  ⟨fun cnt f h => handle_unreadable fault_hyst ctx cnt f h,
   fun cnt obs => trigger_index_filter_readable fault_hyst ctx obs cnt⟩

/-- C6 at threshold 2: read failures inside a streak of three faults neither
reset nor advance it. -/
theorem unreadable_indicator_keeps_counter_witness :
    monitor_handle_fan_fault 2 ctx_all_ok 2 FileRead.fopen_fails =
      ⟨2, [Event.read_fan1_fault], none⟩ ∧
    trigger_index 2 ctx_all_ok 0
      [fault_line, FileRead.fopen_fails, fault_line, FileRead.fgets_fails, fault_line] = some 4 ∧
    trigger_index 2 ctx_all_ok 0 [fault_line, fault_line, fault_line] = some 2 :=
  ⟨(unreadable_indicator_keeps_counter 2 ctx_all_ok).1 2 FileRead.fopen_fails (by decide),
   by decide, by decide⟩

/-- C9 fails on the code: with threshold 1 and the counter at 0, the call on
the first faulty reading returns to the loop (counter 1) and triggers nothing. -/
theorem threshold_one_first_fault_does_not_trigger :
    faulty fault_line = true ∧
    monitor_handle_fan_fault 1 ctx_all_ok 0 fault_line =
      ⟨1, [Event.read_fan1_fault], none⟩ := by
  decide

/-- C9 as amended: with threshold 1 and the counter at 0, the first faulty
reading only advances the counter to 1; the second consecutive faulty reading
is the one that triggers the shutdown. -/
theorem threshold_one_second_fault_triggers (ctx : IioCtx) (f1 f2 : FileRead)
    (h1 : faulty f1 = true) (h2 : faulty f2 = true) :
    monitor_handle_fan_fault 1 ctx 0 f1 = ⟨1, [Event.read_fan1_fault], none⟩ ∧
    (monitor_handle_fan_fault 1 ctx 1 f2).exit_status = some EXIT_SUCCESS ∧
    trigger_index 1 ctx 0 [f1, f2] = some 1 := by
  have e1 := handle_faulty_below 1 ctx 0 f1 h1 (by decide)
  have e2 := handle_faulty_reached 1 ctx 1 f2 h2 (by decide)
  refine ⟨e1, by rw [e2], ?_⟩
  rw [trigger_index_cons_next 1 ctx 0 1 f1 _ _ e1, trigger_index_cons_exit 1 ctx 1 _ f2 _ _ _ e2]
  rfl

/-- The amended C9 on two readings of `1`. -/
theorem threshold_one_second_fault_triggers_witness :
    monitor_handle_fan_fault 1 ctx_all_ok 0 fault_line = ⟨1, [Event.read_fan1_fault], none⟩ ∧
    (monitor_handle_fan_fault 1 ctx_all_ok 1 fault_line).exit_status = some EXIT_SUCCESS ∧
    trigger_index 1 ctx_all_ok 0 [fault_line, fault_line] = some 1 :=
  threshold_one_second_fault_triggers ctx_all_ok fault_line fault_line (by decide) (by decide)

/-! ## Emergency shutdown -/

theorem handle_exit_cases (fault_hyst : Nat) (ctx : IioCtx) (cnt : Nat) (f : FileRead)
    (h : (monitor_handle_fan_fault fault_hyst ctx cnt f).exit_status ≠ none) :
    faulty f = true ∧ ¬ cnt < fault_hyst := by
  by_cases hr : readable f = true
  · by_cases hf : faulty f = true
    · by_cases hc : cnt < fault_hyst
      · rw [handle_faulty_below fault_hyst ctx cnt f hf hc] at h
        exact absurd rfl h
      · exact ⟨hf, hc⟩
    · rw [handle_not_faulty fault_hyst ctx cnt f hr (by simpa using hf)] at h
      exact absurd rfl h
  · rw [handle_unreadable fault_hyst ctx cnt f (by simpa using hr)] at h
    exact absurd rfl h

theorem shutdown_loop_table (ctx : IioCtx) :
    (shutdown_loop ctx monitor_shutdown_list).filterMap looked_up =
        ["adrv9009-phy", "adrv9009-phy-b", "hmc7044"] ∧
    (shutdown_loop ctx monitor_shutdown_list).filterMap disable_write =
        ["adrv9009-phy", "adrv9009-phy-b", "hmc7044"].filter ctx.find_device ∧
    Event.reboot_power_off ∉ shutdown_loop ctx monitor_shutdown_list ∧
    pwm_writes (shutdown_loop ctx monitor_shutdown_list) = [] := by
  simp only [shutdown_loop, monitor_shutdown_list, monitor_iio_dev_shutdown,
    monitor_iio_dev_debug_shutdown, HMC7044_SLEEP_VAL, HMC7044_SLEEP_REG, DONT_CARE, pwm_writes]
  cases h1 : ctx.find_device "adrv9009-phy" <;>
  cases h2 : ctx.find_device "adrv9009-phy-b" <;>
  cases h3 : ctx.find_device "hmc7044" <;>
  simp [h1, h2, h3, looked_up, disable_write, pwm_write] <;>
  split_ifs <;> simp [looked_up, disable_write, pwm_write]

/-- C3: whenever a call of `monitor_handle_fan_fault` triggers the shutdown,
then for every behaviour of the libiio calls (each device found or not, each
write failing or not) the three entries of `monitor_shutdown_list` are each
looked up, in declaration order; every device that is found gets its disabling
write, in the same order; and `reboot(RB_POWER_OFF)` is called exactly once,
after all of that, followed only by `clean_up` and `exit(EXIT_SUCCESS)`. -/
theorem shutdown_attempts_every_entry_then_powers_off (fault_hyst : Nat) (ctx : IioCtx)
    (cnt : Nat) (f : FileRead)
    (htrig : (monitor_handle_fan_fault fault_hyst ctx cnt f).exit_status ≠ none) :
    ∃ actions : List Event,
      (monitor_handle_fan_fault fault_hyst ctx cnt f).events =
        [Event.read_fan1_fault, Event.emerg_fan_faulty] ++ actions
          ++ [Event.reboot_power_off, Event.clean_up] ∧
      actions.filterMap looked_up = ["adrv9009-phy", "adrv9009-phy-b", "hmc7044"] ∧
      actions.filterMap disable_write =
        ["adrv9009-phy", "adrv9009-phy-b", "hmc7044"].filter ctx.find_device ∧
      Event.reboot_power_off ∉ actions ∧
      (monitor_handle_fan_fault fault_hyst ctx cnt f).events.count Event.reboot_power_off = 1 ∧
      (monitor_handle_fan_fault fault_hyst ctx cnt f).exit_status = some EXIT_SUCCESS := by
  obtain ⟨hf, hc⟩ := handle_exit_cases fault_hyst ctx cnt f htrig
  obtain ⟨t1, t2, t3, _⟩ := shutdown_loop_table ctx
  rw [handle_faulty_reached fault_hyst ctx cnt f hf hc]
  refine ⟨shutdown_loop ctx monitor_shutdown_list, rfl, t1, t2, t3, ?_, rfl⟩
  simp only [List.count_append, List.count_cons, List.count_nil]
  rw [List.count_eq_zero_of_not_mem t3]
  decide

/-- C3 with the first device missing and the second write failing: the third
entry is still written, then the power-off follows. -/
theorem shutdown_attempts_every_entry_then_powers_off_witness :
    (monitor_handle_fan_fault 5 ctx_mixed 5 fault_line).events =
      [Event.read_fan1_fault, Event.emerg_fan_faulty,
        Event.iio_find_device "adrv9009-phy", Event.warn_not_found "adrv9009-phy",
        Event.iio_find_device "adrv9009-phy-b",
        Event.iio_attr_write_raw "adrv9009-phy-b" "ensm_mode" "radio_off",
        Event.warn_disable_failed "adrv9009-phy-b",
        Event.iio_find_device "hmc7044", Event.iio_reg_write "hmc7044" 0 1,
        Event.reboot_power_off, Event.clean_up] ∧
    ∃ actions : List Event,
      (monitor_handle_fan_fault 5 ctx_mixed 5 fault_line).events =
        [Event.read_fan1_fault, Event.emerg_fan_faulty] ++ actions
          ++ [Event.reboot_power_off, Event.clean_up] ∧
      actions.filterMap looked_up = ["adrv9009-phy", "adrv9009-phy-b", "hmc7044"] ∧
      actions.filterMap disable_write =
        ["adrv9009-phy", "adrv9009-phy-b", "hmc7044"].filter ctx_mixed.find_device ∧
      Event.reboot_power_off ∉ actions ∧
      (monitor_handle_fan_fault 5 ctx_mixed 5 fault_line).events.count
        Event.reboot_power_off = 1 ∧
      (monitor_handle_fan_fault 5 ctx_mixed 5 fault_line).exit_status = some EXIT_SUCCESS :=
  ⟨by decide,
   shutdown_attempts_every_entry_then_powers_off 5 ctx_mixed 5 fault_line (by decide)⟩

/-! ## The control loop -/

theorem pwm_writes_handle (fault_hyst : Nat) (ctx : IioCtx) (cnt : Nat) (f : FileRead) :
    pwm_writes (monitor_handle_fan_fault fault_hyst ctx cnt f).events = [] := by
  by_cases hr : readable f = true
  · by_cases hf : faulty f = true
    · by_cases hc : cnt < fault_hyst
      · rw [handle_faulty_below fault_hyst ctx cnt f hf hc]; rfl
      · rw [handle_faulty_reached fault_hyst ctx cnt f hf hc]
        have h := (shutdown_loop_table ctx).2.2.2
        unfold pwm_writes at h ⊢
        simp [List.filterMap_append, h, pwm_write]
    · rw [handle_not_faulty fault_hyst ctx cnt f hr (by simpa using hf)]; rfl
  · rw [handle_unreadable fault_hyst ctx cnt f (by simpa using hr)]; rfl

theorem pwm_writes_channel_reads (n : Nat) :
    pwm_writes ((List.range n).map Event.iio_channel_attr_read) = [] := by
  unfold pwm_writes
  rw [List.filterMap_eq_nil_iff]
  intro a ha
  obtain ⟨i, _, rfl⟩ := List.mem_map.mp ha
  rfl

theorem pwm_writes_append (a b : List Event) :
    pwm_writes (a ++ b) = pwm_writes a ++ pwm_writes b := by
  unfold pwm_writes
  exact List.filterMap_append _ _ _

/-- The four ways through the loop body. -/
theorem run_body_select_fails (fault_hyst : Nat) (st : State) (c : Cycle)
    (h : c.select_ret < 0) :
    run_body fault_hyst st c = ([Event.select_error], Step.brk st) := by
  simp [run_body, h]

theorem run_body_stopped (fault_hyst : Nat) (st : State) (c : Cycle)
    (h : ¬ c.select_ret < 0) (hr : c.running = false) :
    run_body fault_hyst st c = ([], Step.brk st) := by
  simp [run_body, h, hr]

theorem run_body_shutdown (fault_hyst : Nat) (st : State) (c : Cycle)
    (h : ¬ c.select_ret < 0) (hr : c.running = true) (status : Int)
    (hx : (monitor_handle_fan_fault fault_hyst c.iio st.cnt c.fan1_fault).exit_status
      = some status) :
    run_body fault_hyst st c =
      ((monitor_handle_fan_fault fault_hyst c.iio st.cnt c.fan1_fault).events,
        Step.exit
          { st with cnt := (monitor_handle_fan_fault fault_hyst c.iio st.cnt c.fan1_fault).cnt }
          status) := by
  simp [run_body, h, hr, hx]

theorem run_body_monitors (fault_hyst : Nat) (st : State) (c : Cycle)
    (h : ¬ c.select_ret < 0) (hr : c.running = true)
    (hx : (monitor_handle_fan_fault fault_hyst c.iio st.cnt c.fan1_fault).exit_status = none) :
    run_body fault_hyst st c =
      ((monitor_handle_fan_fault fault_hyst c.iio st.cnt c.fan1_fault).events
          ++ (List.range st.fan_monitor.numb_devs).map Event.iio_channel_attr_read
          ++ [Event.get_pwm (max_temp_loop (c.reads st.fan_monitor.numb_devs) 0)]
          ++ (if monitor_get_pwm (max_temp_loop (c.reads st.fan_monitor.numb_devs) 0)
                st.fan_monitor.pwm = st.fan_monitor.pwm then []
              else [Event.write_pwm1
                (monitor_get_pwm (max_temp_loop (c.reads st.fan_monitor.numb_devs) 0)
                  st.fan_monitor.pwm) c.pwm1_write]),
        Step.next
          { fan_monitor :=
              { st.fan_monitor with
                pwm := monitor_get_pwm (max_temp_loop (c.reads st.fan_monitor.numb_devs) 0)
                  st.fan_monitor.pwm },
            cnt := (monitor_handle_fan_fault fault_hyst c.iio st.cnt c.fan1_fault).cnt }) := by
  by_cases hn : monitor_get_pwm (max_temp_loop (c.reads st.fan_monitor.numb_devs) 0)
      st.fan_monitor.pwm = st.fan_monitor.pwm
  · simp only [run_body, h, hr, hx, hn, sysfs_write_attr]
    simp
  · simp [run_body, h, hr, hx, hn, sysfs_write_attr]

theorem handle_continue_events (fault_hyst : Nat) (ctx : IioCtx) (cnt : Nat) (f : FileRead)
    (h : (monitor_handle_fan_fault fault_hyst ctx cnt f).exit_status = none) :
    (monitor_handle_fan_fault fault_hyst ctx cnt f).events = [Event.read_fan1_fault] := by
  by_cases hr : readable f = true
  · by_cases hf : faulty f = true
    · by_cases hc : cnt < fault_hyst
      · rw [handle_faulty_below fault_hyst ctx cnt f hf hc]
      · rw [handle_faulty_reached fault_hyst ctx cnt f hf hc] at h
        exact absurd h (by simp)
    · rw [handle_not_faulty fault_hyst ctx cnt f hr (by simpa using hf)]
  · rw [handle_unreadable fault_hyst ctx cnt f (by simpa using hr)]

theorem monitor_get_pwm_of_band (t : Int) (prev d : Nat) (h : band_duty t = some d) :
    monitor_get_pwm t prev = d := by
  simp only [band_duty] at h
  simp only [monitor_get_pwm, THRESH_PWM_000, THRESH_PWM_025_L, THRESH_PWM_025_H,
    THRESH_PWM_050_L, THRESH_PWM_050_H, THRESH_PWM_075_L, THRESH_PWM_075_H, THRESH_PWM_100,
    PWM_25, PWM_50, PWM_75, PWM_100, ge_iff_le]
  split_ifs at h ⊢ <;> simp_all

/-- The writes of one iteration and the state it leaves. -/
theorem run_body_writes (fault_hyst : Nat) (st : State) (c : Cycle) :
    (∀ ev st1, run_body fault_hyst st c = (ev, Step.next st1) →
      pwm_writes ev =
        (if monitor_get_pwm (max_temp_loop (c.reads st.fan_monitor.numb_devs) 0)
            st.fan_monitor.pwm = st.fan_monitor.pwm then []
          else [(monitor_get_pwm (max_temp_loop (c.reads st.fan_monitor.numb_devs) 0)
            st.fan_monitor.pwm, c.pwm1_write)]) ∧
      st1.fan_monitor =
        { st.fan_monitor with
          pwm := monitor_get_pwm (max_temp_loop (c.reads st.fan_monitor.numb_devs) 0)
            st.fan_monitor.pwm }) ∧
    (∀ ev st1, run_body fault_hyst st c = (ev, Step.brk st1) →
      pwm_writes ev = [] ∧ st1 = st) ∧
    (∀ ev st1 status, run_body fault_hyst st c = (ev, Step.exit st1 status) →
      pwm_writes ev = [] ∧ st1.fan_monitor = st.fan_monitor ∧ status = EXIT_SUCCESS) := by
  by_cases hs : c.select_ret < 0
  · rw [run_body_select_fails fault_hyst st c hs]
    refine ⟨?_, ?_, ?_⟩
    · intro ev st1 h; simp at h
    · intro ev st1 h
      simp only [Prod.mk.injEq, Step.brk.injEq] at h
      obtain ⟨rfl, rfl⟩ := h
      exact ⟨rfl, rfl⟩
    · intro ev st1 status h; simp at h
  · by_cases hr : c.running = true
    · cases hx : (monitor_handle_fan_fault fault_hyst c.iio st.cnt c.fan1_fault).exit_status with
      | none =>
        rw [run_body_monitors fault_hyst st c hs hr hx]
        refine ⟨?_, ?_, ?_⟩
        · intro ev st1 h
          simp only [Prod.mk.injEq, Step.next.injEq] at h
          obtain ⟨rfl, rfl⟩ := h
          refine ⟨?_, rfl⟩
          rw [pwm_writes_append, pwm_writes_append, pwm_writes_append, pwm_writes_handle,
            pwm_writes_channel_reads]
          split_ifs <;> rfl
        · intro ev st1 h; simp at h
        · intro ev st1 status h; simp at h
      | some status =>
        rw [run_body_shutdown fault_hyst st c hs hr status hx]
        refine ⟨?_, ?_, ?_⟩
        · intro ev st1 h; simp at h
        · intro ev st1 h; simp at h
        · intro ev st1 status1 h
          simp only [Prod.mk.injEq, Step.exit.injEq] at h
          obtain ⟨rfl, rfl, rfl⟩ := h
          refine ⟨pwm_writes_handle _ _ _ _, rfl, ?_⟩
          have hne : (monitor_handle_fan_fault fault_hyst c.iio st.cnt c.fan1_fault).exit_status
              ≠ none := by rw [hx]; simp
          obtain ⟨hf, hc⟩ := handle_exit_cases _ _ _ _ hne
          rw [handle_faulty_reached _ _ _ _ hf hc] at hx
          simpa using hx.symm
    · rw [run_body_stopped fault_hyst st c hs (by simpa using hr)]
      refine ⟨?_, ?_, ?_⟩
      · intro ev st1 h; simp at h
      · intro ev st1 h
        simp only [Prod.mk.injEq, Step.brk.injEq] at h
        obtain ⟨rfl, rfl⟩ := h
        exact ⟨rfl, rfl⟩
      · intro ev st1 status h; simp at h

theorem run_cons_next (fault_hyst : Nat) (st st1 : State) (c : Cycle) (cs : List Cycle)
    (ev : List Event) (h : run_body fault_hyst st c = (ev, Step.next st1)) :
    run fault_hyst st (c :: cs) =
      (ev ++ (run fault_hyst st1 cs).1, (run fault_hyst st1 cs).2) := by
  simp [run, h]

theorem run_cons_brk (fault_hyst : Nat) (st st1 : State) (c : Cycle) (cs : List Cycle)
    (ev : List Event) (h : run_body fault_hyst st c = (ev, Step.brk st1)) :
    run fault_hyst st (c :: cs) = (ev, RunResult.returned st1) := by
  simp [run, h]

theorem run_cons_exit (fault_hyst : Nat) (st st1 : State) (c : Cycle) (cs : List Cycle)
    (ev : List Event) (status : Int)
    (h : run_body fault_hyst st c = (ev, Step.exit st1 status)) :
    run fault_hyst st (c :: cs) = (ev, RunResult.exited st1 status) := by
  simp [run, h]

/-- While the temperature stays in the band of the duty already applied,
nothing is written. -/
theorem run_in_band_no_write (fault_hyst : Nat) (d : Nat) (cs : List Cycle) :
    ∀ st : State, st.fan_monitor.pwm = d →
      (∀ x ∈ cs, band_duty (max_temp_loop (x.reads st.fan_monitor.numb_devs) 0) = some d) →
      pwm_writes (run fault_hyst st cs).1 = [] := by
  induction cs with
  | nil => intro st _ _; rfl
  | cons c rest ih =>
    intro st hd hband
    have hc := hband c (List.mem_cons_self _ _)
    have hnew := monitor_get_pwm_of_band _ st.fan_monitor.pwm d hc
    obtain ⟨w1, w2, w3⟩ := run_body_writes fault_hyst st c
    cases hb : run_body fault_hyst st c with
    | mk ev step =>
      cases step with
      | next st1 =>
        obtain ⟨e1, e2⟩ := w1 ev st1 hb
        rw [run_cons_next fault_hyst st st1 c rest ev hb, pwm_writes_append, e1, hnew,
          if_pos hd.symm]
        have hst1 : st1.fan_monitor.pwm = d := by rw [e2]; exact hnew
        have hn1 : st1.fan_monitor.numb_devs = st.fan_monitor.numb_devs := by rw [e2]; rfl
        rw [ih st1 hst1 (by
          intro x hx
          rw [hn1]
          exact hband x (List.mem_cons_of_mem _ hx))]
        rfl
      | brk st1 =>
        rw [run_cons_brk fault_hyst st st1 c rest ev hb]
        exact (w2 ev st1 hb).1
      | exit st1 status =>
        rw [run_cons_exit fault_hyst st st1 c rest ev status hb]
        exact (w3 ev st1 status hb).1

/-- C4: an iteration of the loop that reaches the actuation step calls
`sysfs_write_attr` on `pwm1` exactly when the mapped duty differs from
`fan_monitor.pwm`, and then with the mapped duty. Hence in a run whose first
cycle reaches the actuation step and whose temperatures all lie in one band,
of duty `d`, the only write is the one of `d` in the first cycle when `d`
differs from the startup duty, and nothing at all is written when it does
not. -/
theorem duty_written_iff_changed (fault_hyst : Nat) (st : State) (c : Cycle) :
    (∀ ev st1, run_body fault_hyst st c = (ev, Step.next st1) →
      pwm_writes ev =
        (if monitor_get_pwm (max_temp_loop (c.reads st.fan_monitor.numb_devs) 0)
            st.fan_monitor.pwm = st.fan_monitor.pwm then []
          else [(monitor_get_pwm (max_temp_loop (c.reads st.fan_monitor.numb_devs) 0)
            st.fan_monitor.pwm, c.pwm1_write)])) ∧
    (∀ (cs : List Cycle) (d : Nat) ev st1, run_body fault_hyst st c = (ev, Step.next st1) →
      (∀ x ∈ c :: cs,
        band_duty (max_temp_loop (x.reads st.fan_monitor.numb_devs) 0) = some d) →
      pwm_writes ev = (if d = st.fan_monitor.pwm then [] else [(d, c.pwm1_write)]) ∧
      pwm_writes (run fault_hyst st (c :: cs)).1 =
        (if d = st.fan_monitor.pwm then [] else [(d, c.pwm1_write)])) := by
  obtain ⟨w1, _, _⟩ := run_body_writes fault_hyst st c
  refine ⟨fun ev st1 h => (w1 ev st1 h).1, ?_⟩
  intro cs d ev st1 hb hband
  obtain ⟨e1, e2⟩ := w1 ev st1 hb
  have hnew := monitor_get_pwm_of_band _ st.fan_monitor.pwm d
    (hband c (List.mem_cons_self _ _))
  rw [hnew] at e1
  have hst1 : st1.fan_monitor.pwm = d := by rw [e2]; exact hnew
  have hn1 : st1.fan_monitor.numb_devs = st.fan_monitor.numb_devs := by rw [e2]; rfl
  have hrest := run_in_band_no_write fault_hyst d cs st1 hst1 (by
    intro x hx
    rw [hn1]
    exact hband x (List.mem_cons_of_mem _ hx))
  refine ⟨e1, ?_⟩
  rw [run_cons_next fault_hyst st st1 c cs ev hb, pwm_writes_append, e1, hrest, List.append_nil]

/-- C4 on three cycles at 65000, 61000 and 70000 (all in the 50% band): from
startup duty 0 the only write is 128 in the first cycle; from startup duty 128
nothing is written. -/
theorem duty_written_iff_changed_witness :
    pwm_writes (run 5 (sample_state 0)
      [sample_cycle [read_ok "65000\n", read_ok "30000\n"] no_fault_line WriteOutcome.written,
       sample_cycle [read_ok "61000\n", read_error] no_fault_line WriteOutcome.written,
       sample_cycle [read_ok "0\n", read_ok "70000\n"] no_fault_line WriteOutcome.written]).1
      = [(128, WriteOutcome.written)] ∧
    pwm_writes (run 5 (sample_state 128)
      [sample_cycle [read_ok "65000\n", read_ok "30000\n"] no_fault_line WriteOutcome.written,
       sample_cycle [read_ok "61000\n", read_error] no_fault_line WriteOutcome.written,
       sample_cycle [read_ok "0\n", read_ok "70000\n"] no_fault_line WriteOutcome.written]).1
      = [] :=
  ⟨((duty_written_iff_changed 5 (sample_state 0)
      (sample_cycle [read_ok "65000\n", read_ok "30000\n"] no_fault_line
        WriteOutcome.written)).2
      [sample_cycle [read_ok "61000\n", read_error] no_fault_line WriteOutcome.written,
       sample_cycle [read_ok "0\n", read_ok "70000\n"] no_fault_line WriteOutcome.written]
      128
      (run_body 5 (sample_state 0)
        (sample_cycle [read_ok "65000\n", read_ok "30000\n"] no_fault_line
          WriteOutcome.written)).1
      (sample_state 128) (by decide) (by decide)).2.trans (by decide),
   ((duty_written_iff_changed 5 (sample_state 128)
      (sample_cycle [read_ok "65000\n", read_ok "30000\n"] no_fault_line
        WriteOutcome.written)).2
      [sample_cycle [read_ok "61000\n", read_error] no_fault_line WriteOutcome.written,
       sample_cycle [read_ok "0\n", read_ok "70000\n"] no_fault_line WriteOutcome.written]
      128
      (run_body 5 (sample_state 128)
        (sample_cycle [read_ok "65000\n", read_ok "30000\n"] no_fault_line
          WriteOutcome.written)).1
      (sample_state 128) (by decide) (by decide)).2.trans (by decide)⟩

/-! ## Sampling -/

theorem max_temp_loop_spec (rs : List AttrRead) :
    ∀ acc : Int, acc ≤ max_temp_loop rs acc ∧
      (∀ r ∈ rs, monitor_iio_dev_attr_get r ≤ max_temp_loop rs acc) ∧
      (max_temp_loop rs acc = acc ∨
        ∃ r ∈ rs, max_temp_loop rs acc = monitor_iio_dev_attr_get r) := by
  induction rs with
  | nil => intro acc; simp [max_temp_loop]
  | cons r rest ih =>
    intro acc
    simp only [max_temp_loop]
    by_cases h : monitor_iio_dev_attr_get r > acc
    · rw [if_pos h]
      obtain ⟨i1, i2, i3⟩ := ih (monitor_iio_dev_attr_get r)
      refine ⟨by omega, ?_, ?_⟩
      · intro x hx
        rcases List.mem_cons.mp hx with rfl | hx
        · exact i1
        · exact i2 x hx
      · rcases i3 with e | ⟨x, hx, e⟩
        · exact Or.inr ⟨r, List.mem_cons_self _ _, e⟩
        · exact Or.inr ⟨x, List.mem_cons_of_mem _ hx, e⟩
    · rw [if_neg h]
      obtain ⟨i1, i2, i3⟩ := ih acc
      refine ⟨i1, ?_, ?_⟩
      · intro x hx
        rcases List.mem_cons.mp hx with rfl | hx
        · omega
        · exact i2 x hx
      · rcases i3 with e | ⟨x, hx, e⟩
        · exact Or.inl e
        · exact Or.inr ⟨x, List.mem_cons_of_mem _ hx, e⟩

theorem attr_get_of_failed (r : AttrRead) (h : read_failed r = true) :
    monitor_iio_dev_attr_get r = 0 := by
  unfold read_failed at h
  unfold monitor_iio_dev_attr_get
  by_cases hc : r.cnt < 0
  · simp [hc]
  · simp only [hc, decide_False, Bool.false_or, Bool.or_eq_true] at h
    rcases h with h | h <;> simp_all

theorem attr_get_of_parsed (r : AttrRead) (h : read_failed r = false) :
    monitor_iio_dev_attr_get r = (strtol r.buf.toList).value := by
  unfold read_failed at h
  unfold monitor_iio_dev_attr_get
  simp only [Bool.or_eq_false_iff, decide_eq_false_iff_not] at h
  obtain ⟨⟨h1, h2⟩, h3⟩ := h
  simp_all

/-- C5: for every list `rs` of channel read outcomes, the temperature
`max_temp_loop rs 0` is the maximum of 0 and the channel values (it is at least
0 and at least every channel value, and it is 0 or one of them), where a
channel whose read or conversion failed has the value 0 and any other the
parsed integer. An iteration that gets as far as sampling with these outcomes
always runs on to the end of the body: it hands exactly this temperature to
`monitor_get_pwm` and keeps the duty it returns. When every channel fails the
temperature is 0 and the duty is 0. -/
theorem sampled_temperature_is_maximum (rs : List AttrRead) :
    (0 ≤ max_temp_loop rs 0 ∧
      (∀ r ∈ rs, monitor_iio_dev_attr_get r ≤ max_temp_loop rs 0) ∧
      (max_temp_loop rs 0 = 0 ∨ ∃ r ∈ rs, max_temp_loop rs 0 = monitor_iio_dev_attr_get r)) ∧
    (∀ r : AttrRead, read_failed r = true → monitor_iio_dev_attr_get r = 0) ∧
    (∀ r : AttrRead, read_failed r = false →
      monitor_iio_dev_attr_get r = (strtol r.buf.toList).value) ∧
    (∀ (fault_hyst : Nat) (st : State) (c : Cycle),
      c.reads st.fan_monitor.numb_devs = rs → ¬ c.select_ret < 0 → c.running = true →
      (monitor_handle_fan_fault fault_hyst c.iio st.cnt c.fan1_fault).exit_status = none →
      ∃ (writes : List Event) (st1 : State),
        run_body fault_hyst st c =
          ([Event.read_fan1_fault]
            ++ (List.range st.fan_monitor.numb_devs).map Event.iio_channel_attr_read
            ++ [Event.get_pwm (max_temp_loop rs 0)] ++ writes, Step.next st1) ∧
        (∀ e ∈ writes, ∃ pwm outcome, e = Event.write_pwm1 pwm outcome) ∧
        st1.fan_monitor.pwm = monitor_get_pwm (max_temp_loop rs 0) st.fan_monitor.pwm) ∧
    ((∀ r ∈ rs, read_failed r = true) →
      max_temp_loop rs 0 = 0 ∧ ∀ prev : Nat, monitor_get_pwm (max_temp_loop rs 0) prev = 0) := by
  have hspec := max_temp_loop_spec rs 0
  refine ⟨hspec, attr_get_of_failed, attr_get_of_parsed, ?_, ?_⟩
  · intro fault_hyst st c hrs hs hr hx
    subst hrs
    rw [run_body_monitors fault_hyst st c hs hr hx, handle_continue_events _ _ _ _ hx]
    refine ⟨_, _, rfl, ?_, rfl⟩
    intro e he
    split_ifs at he
    · simp at he
    · exact ⟨_, _, List.mem_singleton.mp he⟩
  · intro hall
    have h0 : max_temp_loop rs 0 = 0 := by
      rcases hspec.2.2 with e | ⟨r, hr, e⟩
      · exact e
      · rw [e]; exact attr_get_of_failed r (hall r hr)
    refine ⟨h0, ?_⟩
    intro prev
    rw [h0]
    rfl

/-- C5 on two channels: one fails and one reads 65000, so the temperature is
65000 and the iteration goes on to map it; with both failing the temperature
is 0 and the duty is 0. -/
theorem sampled_temperature_is_maximum_witness :
    max_temp_loop [read_error, read_ok "65000\n"] 0 = 65000 ∧
    (∃ (writes : List Event) (st1 : State),
      run_body 5 (sample_state 0)
          (sample_cycle [read_error, read_ok "65000\n"] no_fault_line WriteOutcome.written) =
        ([Event.read_fan1_fault]
          ++ (List.range (sample_state 0).fan_monitor.numb_devs).map Event.iio_channel_attr_read
          ++ [Event.get_pwm (max_temp_loop [read_error, read_ok "65000\n"] 0)] ++ writes,
          Step.next st1) ∧
      (∀ e ∈ writes, ∃ pwm outcome, e = Event.write_pwm1 pwm outcome) ∧
      st1.fan_monitor.pwm =
        monitor_get_pwm (max_temp_loop [read_error, read_ok "65000\n"] 0)
          (sample_state 0).fan_monitor.pwm) ∧
    (max_temp_loop [read_error, read_ok "no digits"] 0 = 0 ∧
      ∀ prev : Nat, monitor_get_pwm (max_temp_loop [read_error, read_ok "no digits"] 0) prev = 0) :=
  ⟨by decide,
   (sampled_temperature_is_maximum [read_error, read_ok "65000\n"]).2.2.2.1 5 (sample_state 0)
     (sample_cycle [read_error, read_ok "65000\n"] no_fault_line WriteOutcome.written)
     (by decide) (by decide) (by decide) (by decide),
   (sampled_temperature_is_maximum [read_error, read_ok "no digits"]).2.2.2.2 (by decide)⟩

/-! ## The duty the daemon remembers -/

theorem last_attempted_duty_append (s : Nat) (a b : List Event) :
    last_attempted_duty s (a ++ b) = last_attempted_duty (last_attempted_duty s a) b := by
  unfold last_attempted_duty
  exact List.foldl_append _ _ _ _

theorem last_attempted_duty_no_writes (ev : List Event) :
    ∀ s : Nat, pwm_writes ev = [] → last_attempted_duty s ev = s := by
  induction ev with
  | nil => intro s _; rfl
  | cons e rest ih =>
    intro s h
    cases e <;>
      first
      | (simp [pwm_writes, pwm_write] at h; done)
      | (exact ih s (by simpa [pwm_writes, pwm_write] using h))

theorem run_body_last_attempted (fault_hyst : Nat) (st : State) (c : Cycle) :
    (run_body fault_hyst st c).2.state.fan_monitor.pwm =
      last_attempted_duty st.fan_monitor.pwm (run_body fault_hyst st c).1 := by
  by_cases hs : c.select_ret < 0
  · rw [run_body_select_fails fault_hyst st c hs]; rfl
  · by_cases hr : c.running = true
    · cases hx : (monitor_handle_fan_fault fault_hyst c.iio st.cnt c.fan1_fault).exit_status with
      | none =>
        rw [run_body_monitors fault_hyst st c hs hr hx]
        simp only [Step.state]
        rw [last_attempted_duty_append, last_attempted_duty_append, last_attempted_duty_append,
          last_attempted_duty_no_writes _ _ (pwm_writes_handle _ _ _ _),
          last_attempted_duty_no_writes _ _ (pwm_writes_channel_reads _)]
        split_ifs with hn
        · exact hn
        · rfl
      | some status =>
        rw [run_body_shutdown fault_hyst st c hs hr status hx]
        simp only [Step.state]
        rw [last_attempted_duty_no_writes _ _ (pwm_writes_handle _ _ _ _)]
    · rw [run_body_stopped fault_hyst st c hs (by simpa using hr)]; rfl

/-- C8 fails on the code: from startup duty 0, a cycle at 65000 whose write of
`pwm1` fails at `fopen` leaves `fan_monitor.pwm` at 128, although no write has
succeeded and the last successfully applied duty is still the startup 0. -/
theorem failed_write_still_updates_pwm :
    pwm_writes (run 5 (sample_state 0)
      [sample_cycle [read_ok "65000\n", read_ok "30000\n"] no_fault_line
        WriteOutcome.fopen_fails]).1 = [(128, WriteOutcome.fopen_fails)] ∧
    (run 5 (sample_state 0)
      [sample_cycle [read_ok "65000\n", read_ok "30000\n"] no_fault_line
        WriteOutcome.fopen_fails]).2.state.fan_monitor.pwm = 128 ∧
    last_successful_duty 0 (run 5 (sample_state 0)
      [sample_cycle [read_ok "65000\n", read_ok "30000\n"] no_fault_line
        WriteOutcome.fopen_fails]).1 = 0 := by
  decide

/-- C8 as amended: after every iteration of every run of the loop, whatever the
temperatures and whatever the outcomes of the writes, `fan_monitor.pwm` is the
duty value of the most recent call of `sysfs_write_attr` on `pwm1`, successful
or not, and the startup value when there has been no such call. -/
theorem pwm_is_last_attempted_duty (fault_hyst : Nat) (cycles : List Cycle) :
    ∀ st : State, (run fault_hyst st cycles).2.state.fan_monitor.pwm =
      last_attempted_duty st.fan_monitor.pwm (run fault_hyst st cycles).1 := by
  induction cycles with
  | nil => intro st; rfl
  | cons c rest ih =>
    intro st
    have hb := run_body_last_attempted fault_hyst st c
    cases hrb : run_body fault_hyst st c with
    | mk ev step =>
      rw [hrb] at hb
      cases step with
      | next st1 =>
        rw [run_cons_next fault_hyst st st1 c rest ev hrb, last_attempted_duty_append, ← hb]
        exact ih st1
      | brk st1 =>
        rw [run_cons_brk fault_hyst st st1 c rest ev hrb]
        exact hb
      | exit st1 status =>
        rw [run_cons_exit fault_hyst st st1 c rest ev status hrb]
        exact hb

/-! ## Stopping and starting -/

theorem run_append_pending (fault_hyst : Nat) (pre : List Cycle) :
    ∀ (st st1 : State) (evs : List Event) (l : List Cycle),
      run fault_hyst st pre = (evs, RunResult.pending st1) →
      run fault_hyst st (pre ++ l) =
        (evs ++ (run fault_hyst st1 l).1, (run fault_hyst st1 l).2) := by
  induction pre with
  | nil =>
    intro st st1 evs l h
    simp only [run, Prod.mk.injEq, RunResult.pending.injEq] at h
    obtain ⟨rfl, rfl⟩ := h
    simp
  | cons c rest ih =>
    intro st st1 evs l h
    cases hrb : run_body fault_hyst st c with
    | mk ev step =>
      cases step with
      | next st2 =>
        rw [run_cons_next fault_hyst st st2 c rest ev hrb] at h
        simp only [Prod.mk.injEq] at h
        obtain ⟨h1, h2⟩ := h
        have hrest : run fault_hyst st2 rest = ((run fault_hyst st2 rest).1, RunResult.pending st1) := by
          rw [← h2]
        rw [List.cons_append, run_cons_next fault_hyst st st2 c (rest ++ l) ev hrb,
          ih st2 st1 _ l hrest, ← h1]
        simp
      | brk st2 =>
        rw [run_cons_brk fault_hyst st st2 c rest ev hrb] at h
        simp at h
      | exit st2 status =>
        rw [run_cons_exit fault_hyst st st2 c rest ev status hrb] at h
        simp at h

theorem iio_devices_scan_ret (iio : IioStartup) (m : monitor) :
    ((iio_devices_scan iio m).1 = -1 ∨ (iio_devices_scan iio m).1 = 0) ∧
    ((iio_devices_scan iio m).2.numb_devs = 0 → (iio_devices_scan iio m).1 = -1) := by
  unfold iio_devices_scan
  by_cases hc : iio.create_default_context = true
  · simp only [hc, Bool.not_true, Bool.false_eq_true, if_false]
    constructor
    · split_ifs <;> simp
    · intro h
      rw [if_pos (Or.inr h)]
  · simp [hc]

theorem main_enters_run (fault_hyst : Nat) (dev_name : Option String)
    (hwmon : Option (List Dirent)) (iio : IioStartup) (cycles : List Cycle)
    (hhw : ¬ (hwmon_find dev_name hwmon fan_monitor_zero).1 < 0)
    (hscan : ¬ (iio_devices_scan iio (hwmon_find dev_name hwmon fan_monitor_zero).2).1 < 0) :
    main fault_hyst dev_name hwmon iio cycles =
      match run fault_hyst
        { fan_monitor := (iio_devices_scan iio (hwmon_find dev_name hwmon fan_monitor_zero).2).2,
          cnt := 0 } cycles with
      | (ev, RunResult.pending _) => (ev, none)
      | (ev, RunResult.returned _) => (ev ++ [Event.clean_up], some 0)
      | (ev, RunResult.exited _ status) => (ev, some status) := by
  have h0 : (iio_devices_scan iio (hwmon_find dev_name hwmon fan_monitor_zero).2).1 = 0 := by
    rcases (iio_devices_scan_ret iio (hwmon_find dev_name hwmon fan_monitor_zero).2).1 with h | h
    · rw [h] at hscan; exact absurd (by decide) hscan
    · exact h
  simp only [main, hhw, if_false, h0]
  rw [if_neg (by decide)]

/-- C7: when the flag `running` is found cleared after the wait of an
iteration, that iteration leaves the loop at once: it performs no action (at
most the error message of a failed `select`), so the fan fault is not
evaluated, no device is shut down, the power-off is not called and `pwm1` is not
written; `run` returns, `main` calls `clean_up` and returns 0. -/
theorem stop_request_ends_loop_cleanly (fault_hyst : Nat) (dev_name : Option String)
    (hwmon : Option (List Dirent)) (iio : IioStartup) (pre : List Cycle) (c : Cycle)
    (rest : List Cycle) (evs : List Event) (st1 : State)
    (hhw : ¬ (hwmon_find dev_name hwmon fan_monitor_zero).1 < 0)
    (hscan : ¬ (iio_devices_scan iio (hwmon_find dev_name hwmon fan_monitor_zero).2).1 < 0)
    (hpre : run fault_hyst
      { fan_monitor := (iio_devices_scan iio (hwmon_find dev_name hwmon fan_monitor_zero).2).2,
        cnt := 0 } pre = (evs, RunResult.pending st1))
    (hstop : c.running = false) :
    (∀ st : State, run fault_hyst st (c :: rest) =
      (if c.select_ret < 0 then [Event.select_error] else [], RunResult.returned st)) ∧
    main fault_hyst dev_name hwmon iio (pre ++ c :: rest) =
      (evs ++ (if c.select_ret < 0 then [Event.select_error] else []) ++ [Event.clean_up],
        some 0) := by
  have hrun : ∀ st : State, run fault_hyst st (c :: rest) =
      (if c.select_ret < 0 then [Event.select_error] else [], RunResult.returned st) := by
    intro st
    by_cases hs : c.select_ret < 0
    · rw [run_cons_brk fault_hyst st st c rest _ (run_body_select_fails fault_hyst st c hs),
        if_pos hs]
    · rw [run_cons_brk fault_hyst st st c rest _ (run_body_stopped fault_hyst st c hs hstop),
        if_neg hs]
  refine ⟨hrun, ?_⟩
  rw [main_enters_run fault_hyst dev_name hwmon iio _ hhw hscan,
    run_append_pending fault_hyst pre _ st1 evs (c :: rest) hpre, hrun st1]

/-- C7 on a run of one full cycle (65000, so 128 is written) followed by a
cycle in which the stop request is seen: the second cycle adds no action, a
third never starts, and `main` cleans up and returns 0. -/
theorem stop_request_ends_loop_cleanly_witness :
    main 5 none hwmon_sample iio_all_found
      ([sample_cycle [read_ok "65000\n", read_ok "30000\n"] no_fault_line WriteOutcome.written]
        ++ stop_cycle
        :: [sample_cycle [read_ok "99000\n", read_ok "30000\n"] fault_line
              WriteOutcome.written]) =
      ([Event.read_fan1_fault, Event.iio_channel_attr_read 0, Event.iio_channel_attr_read 1,
        Event.get_pwm 65000, Event.write_pwm1 128 WriteOutcome.written, Event.clean_up],
        some 0) :=
  ((stop_request_ends_loop_cleanly 5 none hwmon_sample iio_all_found
      [sample_cycle [read_ok "65000\n", read_ok "30000\n"] no_fault_line WriteOutcome.written]
      stop_cycle
      [sample_cycle [read_ok "99000\n", read_ok "30000\n"] fault_line WriteOutcome.written]
      [Event.read_fan1_fault, Event.iio_channel_attr_read 0, Event.iio_channel_attr_read 1,
        Event.get_pwm 65000, Event.write_pwm1 128 WriteOutcome.written]
      (sample_state 128) (by decide) (by decide) (by decide) rfl).2).trans (by decide)

/-- C10 fails on the code: the fan controller is found (`hwmon_find` returns 0)
and libiio holds none of the devices of `iio_list`, so no channel is bound;
`main` then never enters the loop: it only calls `clean_up` and returns -1,
without a single evaluation of the fan fault in the cycles on offer. -/
theorem zero_channels_never_enter_loop :
    (hwmon_find none hwmon_sample fan_monitor_zero).1 = 0 ∧
    (iio_devices_scan iio_none_found
      (hwmon_find none hwmon_sample fan_monitor_zero).2).2.numb_devs = 0 ∧
    main 5 none hwmon_sample iio_none_found
      [sample_cycle [] fault_line WriteOutcome.written,
       sample_cycle [] fault_line WriteOutcome.written] = ([Event.clean_up], some (-1)) := by
  decide

/-- C10 as amended: when the actuation target is found but startup binds no
sensor channel, `iio_devices_scan` reports -1 and startup fails: `main` does
not enter the loop (no fan-fault evaluation, no duty write), calls `clean_up`
and returns -1. -/
theorem zero_channels_fail_startup (fault_hyst : Nat) (dev_name : Option String)
    (hwmon : Option (List Dirent)) (iio : IioStartup) (cycles : List Cycle)
    (hhw : ¬ (hwmon_find dev_name hwmon fan_monitor_zero).1 < 0)
    (hzero : (iio_devices_scan iio
      (hwmon_find dev_name hwmon fan_monitor_zero).2).2.numb_devs = 0) :
    (iio_devices_scan iio (hwmon_find dev_name hwmon fan_monitor_zero).2).1 = -1 ∧
    main fault_hyst dev_name hwmon iio cycles = ([Event.clean_up], some (-1)) := by
  have h1 := (iio_devices_scan_ret iio (hwmon_find dev_name hwmon fan_monitor_zero).2).2 hzero
  refine ⟨h1, ?_⟩
  simp only [main, hhw, if_false, h1]
  rfl

/-- The amended C10 on the sample startup in which no device is found. -/
theorem zero_channels_fail_startup_witness :
    (iio_devices_scan iio_none_found
      (hwmon_find none hwmon_sample fan_monitor_zero).2).1 = -1 ∧
    main 5 none hwmon_sample iio_none_found
      [sample_cycle [] fault_line WriteOutcome.written] = ([Event.clean_up], some (-1)) :=
  zero_channels_fail_startup 5 none hwmon_sample iio_none_found
    [sample_cycle [] fault_line WriteOutcome.written] (by decide) (by decide)

/-! ## The tracker inside the loop -/

theorem handle_independent_of_ctx (fault_hyst : Nat) (ctx1 ctx2 : IioCtx) (cnt : Nat)
    (f : FileRead) :
    (monitor_handle_fan_fault fault_hyst ctx1 cnt f).cnt =
        (monitor_handle_fan_fault fault_hyst ctx2 cnt f).cnt ∧
    (monitor_handle_fan_fault fault_hyst ctx1 cnt f).exit_status =
        (monitor_handle_fan_fault fault_hyst ctx2 cnt f).exit_status := by
  by_cases hr : readable f = true
  · by_cases hf : faulty f = true
    · by_cases hc : cnt < fault_hyst
      · rw [handle_faulty_below fault_hyst ctx1 cnt f hf hc,
          handle_faulty_below fault_hyst ctx2 cnt f hf hc]
        exact ⟨rfl, rfl⟩
      · rw [handle_faulty_reached fault_hyst ctx1 cnt f hf hc,
          handle_faulty_reached fault_hyst ctx2 cnt f hf hc]
        exact ⟨rfl, rfl⟩
    · rw [handle_not_faulty fault_hyst ctx1 cnt f hr (by simpa using hf),
        handle_not_faulty fault_hyst ctx2 cnt f hr (by simpa using hf)]
      exact ⟨rfl, rfl⟩
  · rw [handle_unreadable fault_hyst ctx1 cnt f (by simpa using hr),
      handle_unreadable fault_hyst ctx2 cnt f (by simpa using hr)]
    exact ⟨rfl, rfl⟩

/-- In a run whose cycles all get past the wait and the stop test, the process
ends in the shutdown exactly when the sequence of the indicator observations
of the cycles has a trigger position. -/
theorem run_exits_iff_trigger (fault_hyst : Nat) (ctx : IioCtx) (cycles : List Cycle) :
    ∀ st : State, (∀ c ∈ cycles, ¬ c.select_ret < 0 ∧ c.running = true) →
      ((∃ st1 status, (run fault_hyst st cycles).2 = RunResult.exited st1 status) ↔
        (trigger_index fault_hyst ctx st.cnt (cycles.map Cycle.fan1_fault)).isSome = true) := by
  induction cycles with
  | nil =>
    intro st _
    simp [run, trigger_index]
  | cons c rest ih =>
    intro st hall
    obtain ⟨hs, hr⟩ := hall c (List.mem_cons_self _ _)
    have hrest : ∀ x ∈ rest, ¬ x.select_ret < 0 ∧ x.running = true :=
      fun x hx => hall x (List.mem_cons_of_mem _ hx)
    obtain ⟨i1, i2⟩ := handle_independent_of_ctx fault_hyst c.iio ctx st.cnt c.fan1_fault
    cases hx : (monitor_handle_fan_fault fault_hyst c.iio st.cnt c.fan1_fault).exit_status with
    | none =>
      rw [hx] at i2
      rw [run_cons_next fault_hyst st _ c rest _ (run_body_monitors fault_hyst st c hs hr hx)]
      simp only [List.map_cons, trigger_index, ← i2, Option.isSome_map']
      rw [← i1]
      exact ih _ hrest
    | some status =>
      rw [hx] at i2
      rw [run_cons_exit fault_hyst st _ c rest _ status
        (run_body_shutdown fault_hyst st c hs hr status hx)]
      simp [trigger_index, ← i2]

/-- The end-to-end scenario of the spec with threshold 5 and startup duty 0:
temperature 0 writes nothing, 65000 writes 128, 50000 (a gap) writes nothing
and keeps 128, then five faulty cycles pass and the sixth shuts the devices
down and powers off. -/
theorem end_to_end_scenario :
    (run 5 (sample_state 0)
      [sample_cycle [read_ok "0\n", read_ok "0\n"] no_fault_line WriteOutcome.written,
       sample_cycle [read_ok "65000\n", read_ok "0\n"] no_fault_line WriteOutcome.written,
       sample_cycle [read_ok "50000\n", read_ok "0\n"] no_fault_line WriteOutcome.written,
       sample_cycle [read_ok "50000\n", read_ok "0\n"] fault_line WriteOutcome.written,
       sample_cycle [read_ok "50000\n", read_ok "0\n"] fault_line WriteOutcome.written,
       sample_cycle [read_ok "50000\n", read_ok "0\n"] fault_line WriteOutcome.written,
       sample_cycle [read_ok "50000\n", read_ok "0\n"] fault_line WriteOutcome.written,
       sample_cycle [read_ok "50000\n", read_ok "0\n"] fault_line WriteOutcome.written]).2
      = RunResult.pending
          { fan_monitor := { (sample_state 0).fan_monitor with pwm := 128 }, cnt := 5 } ∧
    (run_body 5 { fan_monitor := { (sample_state 0).fan_monitor with pwm := 128 }, cnt := 5 }
      (sample_cycle [read_ok "50000\n", read_ok "0\n"] fault_line WriteOutcome.written)) =
      ([Event.read_fan1_fault, Event.emerg_fan_faulty,
        Event.iio_find_device "adrv9009-phy",
        Event.iio_attr_write_raw "adrv9009-phy" "ensm_mode" "radio_off",
        Event.iio_find_device "adrv9009-phy-b",
        Event.iio_attr_write_raw "adrv9009-phy-b" "ensm_mode" "radio_off",
        Event.iio_find_device "hmc7044", Event.iio_reg_write "hmc7044" 0 1,
        Event.reboot_power_off, Event.clean_up],
       Step.exit
         { fan_monitor := { (sample_state 0).fan_monitor with pwm := 128 }, cnt := 6 } 0) ∧
    pwm_writes (run 5 (sample_state 0)
      [sample_cycle [read_ok "0\n", read_ok "0\n"] no_fault_line WriteOutcome.written,
       sample_cycle [read_ok "65000\n", read_ok "0\n"] no_fault_line WriteOutcome.written,
       sample_cycle [read_ok "50000\n", read_ok "0\n"] no_fault_line WriteOutcome.written]).1
      = [(128, WriteOutcome.written)] := by
  decide

end FanControl
